import Mathlib

/-!
Verification of the `db_actions` package of the GalaxySimulator repository.

The Go source stores every quadtree node and every star as a row of a SQL
database and threads all state through that database.  We model the database
shallowly: the `nodes` and `stars` tables become total maps from `ℤ` (the
`bigint` keys) to row records, together with the list of live row ids and the
next value of each id sequence.  Columns that an `INSERT` statement of the
source does not mention take the zero default of the de-facto schema
(`star_id = 0`, `subnode = '{0,0,0,0}'`, `root_id = 0`, `total_mass = 0`,
`center_of_mass = '{0,0}'`).

Numeric columns are modelled over an arbitrary `LinearOrderedField K`: the
pure tree operations of the source never leave the rationals, so witnesses
are evaluated at `K = ℚ` by kernel reduction, while the force computations
(which use `math.Sqrt`) are embedded at `K = ℝ` with `Real.sqrt`.  IEEE
division by zero (which produces `Inf`/`NaN` in Go) is modelled by the
`Option`-valued `fdiv`; recursion over the node graph is made total with an
explicit fuel argument, `none` signalling exhaustion.
-/

/-- Mirror of `structs.Vec2` of the Go source: a 2-d vector. -/
@[ext]
structure Vec2 (K : Type) where
  X : K
  Y : K
deriving DecidableEq

/-- Mirror of `structs.Star2D`: position `C`, velocity `V` and mass `M`. -/
structure Star2D (K : Type) where
  C : Vec2 K
  V : Vec2 K
  M : K
deriving DecidableEq

/-- One row of the `nodes` table, with the columns the queries of
`db_actions.go` read and write. -/
structure NodeRow (K : Type) where
  box_width : K
  box_center : K × K
  depth : ℤ
  isleaf : Bool
  star_id : ℤ
  root_id : ℤ
  timestep : ℤ
  subnode : ℤ × ℤ × ℤ × ℤ
  total_mass : K
  center_of_mass : K × K
deriving DecidableEq

/-- The database state: the `nodes` and `stars` tables (total maps plus the
list of live row ids) and the two serial id sequences. -/
structure DB (K : Type) where
  nodes : ℤ → NodeRow K
  nodeIDs : List ℤ
  nextNodeID : ℤ
  stars : ℤ → Star2D K
  starIDs : List ℤ
  nextStarID : ℤ

section NodeStore

variable {K : Type} [LinearOrderedField K]

/-- Replace the row of node `nid` (an `UPDATE nodes ... WHERE node_id=nid`). -/
def setNode (db : DB K) (nid : ℤ) (row : NodeRow K) : DB K :=
  { db with nodes := fun i => if i = nid then row else db.nodes i }

/-- `getBoxWidth`: `SELECT box_width FROM nodes WHERE node_id=...`. -/
def getBoxWidth (db : DB K) (nodeID : ℤ) : K :=
  (db.nodes nodeID).box_width

/-- `getBoxCenter` of the source reads `box_center[1]` and `box_center[2]`
into the byte slices `boxCenterX`, `boxCenterY` and then parses BOTH result
components from `boxCenterX` (line 349 parses `string(boxCenterX)` again for
`y`), so the returned pair is `(cx, cx)` regardless of the stored
y-coordinate. -/
def getBoxCenter (db : DB K) (nodeID : ℤ) : K × K :=
  ((db.nodes nodeID).box_center.1, (db.nodes nodeID).box_center.1)

/-- `getNodeDepth`: `SELECT depth`. -/
def getNodeDepth (db : DB K) (nodeID : ℤ) : ℤ :=
  (db.nodes nodeID).depth

/-- `getTimestepNode`: `SELECT timestep`. -/
def getTimestepNode (db : DB K) (nodeID : ℤ) : ℤ :=
  (db.nodes nodeID).timestep

/-- `getStarID`: `SELECT star_id FROM nodes WHERE node_id=...`. -/
def getStarID (db : DB K) (nodeID : ℤ) : ℤ :=
  (db.nodes nodeID).star_id

/-- `GetStar`: `SELECT x, y, vx, vy, m FROM stars WHERE star_id=...`.  The
`*sql.DB` handle argument of the source carries no data and is dropped. -/
def GetStar (db : DB K) (starID : ℤ) : Star2D K :=
  db.stars starID

/-- `getStarMass`: `SELECT m FROM stars WHERE star_id=...`. -/
def getStarMass (db : DB K) (starID : ℤ) : K :=
  (db.stars starID).M

/-- `getNodeTotalMass`: `SELECT total_mass FROM nodes WHERE node_id=...`. -/
def getNodeTotalMass (db : DB K) (nodeID : ℤ) : K :=
  (db.nodes nodeID).total_mass

/-- `getCenterOfMass` / `getNodeCenterOfMass`: `SELECT center_of_mass[1],
center_of_mass[2]` (these two accessors, unlike `getBoxCenter`, read both
components correctly). -/
def getNodeCenterOfMass (db : DB K) (nodeID : ℤ) : Vec2 K :=
  ⟨(db.nodes nodeID).center_of_mass.1, (db.nodes nodeID).center_of_mass.2⟩

/-- `getSubtreeIDs`: `SELECT subnode[1], subnode[2], subnode[3], subnode[4]`. -/
def getSubtreeIDs (db : DB K) (nodeID : ℤ) : ℤ × ℤ × ℤ × ℤ :=
  (db.nodes nodeID).subnode

/-- `containsStar`: true iff the node's `star_id` is nonzero. -/
def containsStar (db : DB K) (nodeID : ℤ) : Bool :=
  decide ((db.nodes nodeID).star_id ≠ 0)

/-- `isLeaf`: `SELECT COALESCE(isleaf, FALSE)`. -/
def isLeaf (db : DB K) (nodeID : ℤ) : Bool :=
  (db.nodes nodeID).isleaf

/-- `directInsert`: `UPDATE nodes SET star_id=starID WHERE node_id=nodeID`. -/
def directInsert (db : DB K) (starID : ℤ) (nodeID : ℤ) : DB K :=
  setNode db nodeID { db.nodes nodeID with star_id := starID }

/-- `removeStarFromNode`: `UPDATE nodes SET star_id=0 WHERE node_id=...`. -/
def removeStarFromNode (db : DB K) (nodeID : ℤ) : DB K :=
  setNode db nodeID { db.nodes nodeID with star_id := 0 }

/-- `newNode`: `INSERT INTO nodes (box_center, box_width, depth, isleaf,
timestep) VALUES ('{x, y}', width, depth, TRUE, timestep) RETURNING node_id`;
the unmentioned columns take their zero defaults. -/
def newNode (db : DB K) (x y width : K) (depth timestep : ℤ) :
    DB K × ℤ :=
  let nid := db.nextNodeID
  ({ db with
      nodes := fun i =>
        if i = nid then
          { box_width := width, box_center := (x, y), depth := depth,
            isleaf := true, star_id := 0, root_id := 0, timestep := timestep,
            subnode := (0, 0, 0, 0), total_mass := 0,
            center_of_mass := (0, 0) }
        else db.nodes i,
      nodeIDs := nid :: db.nodeIDs,
      nextNodeID := nid + 1 }, nid)

/-- `subdivide`: creates the four child nodes at the parent's center (as
returned by `getBoxCenter`) offset by `boxWidth / 2` in each axis — note the
source uses `boxWidth / 2`, not `boxWidth / 4`, for the offsets — each with
width `boxWidth / 2`, then writes their ids into `subnode` in the order
`(+x +y), (+x -y), (-x +y), (-x -y)` and clears `isleaf`. -/
def subdivide (db : DB K) (nodeID : ℤ) : DB K :=
  let boxWidth := getBoxWidth db nodeID
  let boxCenter := getBoxCenter db nodeID
  let originalDepth := getNodeDepth db nodeID
  let timestep := getTimestepNode db nodeID
  let newPosX := boxCenter.1 + boxWidth / 2
  let newPosY := boxCenter.2 + boxWidth / 2
  let newNegX := boxCenter.1 - boxWidth / 2
  let newNegY := boxCenter.2 - boxWidth / 2
  let newWidth := boxWidth / 2
  let rA := newNode db newPosX newPosY newWidth (originalDepth + 1) timestep
  let rB := newNode rA.1 newPosX newNegY newWidth (originalDepth + 1) timestep
  let rC := newNode rB.1 newNegX newPosY newWidth (originalDepth + 1) timestep
  let rD := newNode rC.1 newNegX newNegY newWidth (originalDepth + 1) timestep
  setNode rD.1 nodeID
    { rD.1.nodes nodeID with
        subnode := (rA.2, rB.2, rC.2, rD.2), isleaf := false,
        timestep := timestep }

/-- `quadrant`: compares the star's coordinates against the pair returned by
`getBoxCenter` and returns 1 (its NE case), 3 (SE), 0 (NW) or 2 (SW). -/
def quadrant (db : DB K) (star : Star2D K) (nodeID : ℤ) : ℤ :=
  let center := getBoxCenter db nodeID
  if star.C.X > center.1 then
    if star.C.Y > center.2 then 1 else 3
  else
    if star.C.Y > center.2 then 0 else 2

/-- `getQuadrantNodeID`: returns `subnode[q+1]` of the parent for
`q ∈ {0,1,2,3}` and `-1` otherwise. -/
def getQuadrantNodeID (db : DB K) (parentNodeID : ℤ) (q : ℤ) : ℤ :=
  let s := (db.nodes parentNodeID).subnode
  if q = 0 then s.1
  else if q = 1 then s.2.1
  else if q = 2 then s.2.2.1
  else if q = 3 then s.2.2.2
  else -1

/-- `updateStarForce`: `UPDATE stars SET vx=force.X, vy=force.Y WHERE
star_id=starID`, returning the star rebuilt with the force in the velocity
slots. -/
def updateStarForce {K : Type} [LinearOrderedField K] (db : DB K)
    (starID : ℤ) (force : Vec2 K) : DB K × Star2D K :=
  let star := GetStar db starID
  let newStar : Star2D K := ⟨⟨star.C.X, star.C.Y⟩, ⟨force.X, force.Y⟩, star.M⟩
  ({ db with
      stars := fun i =>
        if i = starID then
          ⟨(db.stars i).C, ⟨force.X, force.Y⟩, (db.stars i).M⟩
        else db.stars i }, newStar)

end NodeStore

section Insertion

variable {K : Type} [LinearOrderedField K]

/-- `insertIntoStars`: `INSERT INTO stars (x, y, vx, vy, m) VALUES ...
RETURNING star_id`. -/
def insertIntoStars (db : DB K) (star : Star2D K) : DB K × ℤ :=
  let sid := db.nextStarID
  ({ db with
      stars := fun i => if i = sid then star else db.stars i,
      starIDs := sid :: db.starIDs,
      nextStarID := sid + 1 }, sid)

/-- The `SELECT COALESCE(max(root_id), 0) FROM nodes` query of `NewTree`. -/
def maxRootID (db : DB K) : ℤ :=
  (db.nodeIDs.map fun i => (db.nodes i).root_id).foldr max 0

/-- `NewTree`: inserts a root node with the given width, `root_id` and
`timestep` both `max(root_id) + 1`, box center `(0, 0)`, depth 0 and
`isleaf = TRUE`; the columns the `INSERT` does not mention take their zero
defaults. -/
def NewTree (db : DB K) (width : K) : DB K :=
  let rid := maxRootID db + 1
  let nid := db.nextNodeID
  { db with
      nodes := fun i =>
        if i = nid then
          { box_width := width, box_center := (0, 0), depth := 0,
            isleaf := true, star_id := 0, root_id := rid, timestep := rid,
            subnode := (0, 0, 0, 0), total_mass := 0,
            center_of_mass := (0, 0) }
        else db.nodes i,
      nodeIDs := nid :: db.nodeIDs,
      nextNodeID := nid + 1 }

/-- `getRootNodeID`: `SELECT node_id FROM nodes WHERE root_id=index`; `none`
models the `log.Fatalf` abort when no such row exists. -/
def getRootNodeID (db : DB K) (index : ℤ) : Option ℤ :=
  db.nodeIDs.find? fun i => decide ((db.nodes i).root_id = index)

/-- `insertIntoTree`: the four-case recursive placement of the source.  The
four `if` statements of the Go body test booleans computed before any case
runs, so they are mutually exclusive and become one nested conditional.
The source's oddities are kept: in cases 1 and 3 the final recursion
re-enters the SAME node (the computed quadrant child id is discarded), and
case 3 reads the BLOCKING star again when computing the discarded quadrant
of the new star.  `none` models fuel exhaustion. -/
def insertIntoTree : ℕ → DB K → ℤ → ℤ → Option (DB K)
  | 0, _, _, _ => none
  | Nat.succ fuel, db, starID, nodeID =>
    let cs := containsStar db nodeID
    let lf := isLeaf db nodeID
    if lf && cs then
      let db1 := subdivide db nodeID
      let blockingStarID := getStarID db1 nodeID
      let blockingStar := GetStar db1 blockingStarID
      let blockingStarQuadrant := quadrant db1 blockingStar nodeID
      let quadrantNodeID := getQuadrantNodeID db1 nodeID blockingStarQuadrant
      do
        let db2 ← insertIntoTree fuel db1 blockingStarID quadrantNodeID
        let db3 := removeStarFromNode db2 nodeID
        let star := GetStar db3 starID
        let starQuadrant := quadrant db3 star nodeID
        let _unusedQuadrantNodeID := getQuadrantNodeID db3 nodeID starQuadrant
        insertIntoTree fuel db3 starID nodeID
    else if lf && !cs then
      some (directInsert db starID nodeID)
    else if !lf && cs then
      let blockingStarID := getStarID db nodeID
      let blockingStar := GetStar db blockingStarID
      let blockingStarQuadrant := quadrant db blockingStar nodeID
      let quadrantNodeID := getQuadrantNodeID db nodeID blockingStarQuadrant
      do
        let db2 ← insertIntoTree fuel db blockingStarID quadrantNodeID
        let db3 := removeStarFromNode db2 nodeID
        let star := GetStar db3 blockingStarID
        let starQuadrant := quadrant db3 star nodeID
        let _unusedQuadrantNodeID := getQuadrantNodeID db3 nodeID starQuadrant
        insertIntoTree fuel db3 starID nodeID
    else
      let star := GetStar db starID
      let starQuadrant := quadrant db star nodeID
      let quadrantNodeID := getQuadrantNodeID db nodeID starQuadrant
      insertIntoTree fuel db starID quadrantNodeID

/-- `InsertStar`: inserts the star into the stars table, looks the root of
tree `index` up (the `CASE WHEN EXISTS` query yields `-1` when absent),
creates a new tree of hard-coded width 1000 when absent, then inserts the
star id into the tree starting at the root and returns the new star id. -/
def InsertStar (fuel : ℕ) (db : DB K) (star : Star2D K) (index : ℤ) :
    Option (DB K × ℤ) :=
  let r := insertIntoStars db star
  let id : ℤ :=
    match getRootNodeID r.1 index with
    | some i => i
    | none => -1
  if id = -1 then
    let db2 := NewTree r.1 1000
    match getRootNodeID db2 index with
    | none => none
    | some id2 => do
        let db3 ← insertIntoTree fuel db2 r.2 id2
        pure (db3, r.2)
  else do
    let db3 ← insertIntoTree fuel r.1 r.2 id
    pure (db3, r.2)

end Insertion

section Aggregation

variable {K : Type} [LinearOrderedField K]

/-- `UPDATE nodes SET total_mass=m WHERE node_id=nodeID`. -/
def writeTotalMass (db : DB K) (nodeID : ℤ) (m : K) : DB K :=
  setNode db nodeID { db.nodes nodeID with total_mass := m }

/-- `UPDATE nodes SET center_of_mass='{v.X, v.Y}' WHERE node_id=nodeID`. -/
def writeCenterOfMass (db : DB K) (nodeID : ℤ) (v : Vec2 K) : DB K :=
  setNode db nodeID { db.nodes nodeID with center_of_mass := (v.X, v.Y) }

/-- The subnode loop of `updateTotalMassNode` (`upd` is the recursive call
at the remaining fuel): recurse into each nonzero subnode id adding its
returned mass; at the FIRST sentinel id the source instead adds the node's
own star mass (if any) and breaks out of the loop. -/
def tmFold (upd : DB K → ℤ → Option (DB K × K)) :
    DB K → ℤ → List ℤ → Option (DB K × K)
  | db, _, [] => some (db, 0)
  | db, nodeID, subnodeID :: rest =>
    if subnodeID ≠ 0 then
      do
        let r1 ← upd db subnodeID
        let r2 ← tmFold upd r1.1 nodeID rest
        pure (r2.1, r1.2 + r2.2)
    else
      let starID := getStarID db nodeID
      some (db, if starID ≠ 0 then getStarMass db starID else 0)

/-- `updateTotalMassNode`: reads the four subnode ids, runs the subnode loop
(`tmFold`), writes the accumulated mass into the node's `total_mass` column
and returns it. -/
def updateTotalMassNode : ℕ → DB K → ℤ → Option (DB K × K)
  | 0, _, _ => none
  | Nat.succ fuel, db, nodeID =>
    let s := (db.nodes nodeID).subnode
    do
      let r ← tmFold (updateTotalMassNode fuel) db nodeID
        [s.1, s.2.1, s.2.2.1, s.2.2.2]
      pure (writeTotalMass r.1 nodeID r.2, r.2)

/-- The subnode loop of `updateCenterOfMassNode`, accumulating
`(db, totalMass, Σ com.X·mass, Σ com.Y·mass)`: a subnode counts only when
BOTH components of its freshly computed center of mass are nonzero (the
source's `subnodeCenterOfMass.X != 0 && subnodeCenterOfMass.Y != 0` test);
the weight is the subnode's stored `total_mass`. -/
def comFold (upd : DB K → ℤ → Option (DB K × Vec2 K)) :
    DB K → List ℤ → Option (DB K × K × K × K)
  | db, [] => some (db, 0, 0, 0)
  | db, subnodeID :: rest =>
    do
      let r1 ← upd db subnodeID
      let contrib : K × K × K :=
        if r1.2.X ≠ 0 ∧ r1.2.Y ≠ 0 then
          (getNodeTotalMass r1.1 subnodeID,
           r1.2.X * getNodeTotalMass r1.1 subnodeID,
           r1.2.Y * getNodeTotalMass r1.1 subnodeID)
        else (0, 0, 0)
      let r2 ← comFold upd r1.1 rest
      pure (r2.1, contrib.1 + r2.2.1, contrib.2.1 + r2.2.2.1,
        contrib.2.2 + r2.2.2.2)

/-- `updateCenterOfMassNode`: when the node has any nonzero subnode id the
source recurses into ALL four subnode ids (`comFold`) and divides the
accumulated weighted coordinates by the accumulated mass; otherwise it uses
the contained star's position, or the origin when the node is empty.  The
result is written to the `center_of_mass` column and returned.  In the
real-valued model a division by an accumulated mass of zero yields zero
where Go would produce `NaN`/`Inf` components. -/
def updateCenterOfMassNode : ℕ → DB K → ℤ → Option (DB K × Vec2 K)
  | 0, _, _ => none
  | Nat.succ fuel, db, nodeID =>
    let s := (db.nodes nodeID).subnode
    if s ≠ (0, 0, 0, 0) then
      do
        let r ← comFold (updateCenterOfMassNode fuel) db
          [s.1, s.2.1, s.2.2.1, s.2.2.2]
        let v : Vec2 K := ⟨r.2.2.1 / r.2.1, r.2.2.2 / r.2.1⟩
        pure (writeCenterOfMass r.1 nodeID v, v)
    else
      let starID := getStarID db nodeID
      let v : Vec2 K :=
        if starID = 0 then ⟨0, 0⟩
        else ⟨(GetStar db starID).C.X, (GetStar db starID).C.Y⟩
      some (writeCenterOfMass db nodeID v, v)

end Aggregation

section TreeShape

/-- Finite quadtree skeletons over node ids, used to state well-formedness
of the id graph stored in the `nodes` table. -/
inductive QTree : Type where
  | leaf : ℤ → QTree
  | node : ℤ → QTree → QTree → QTree → QTree → QTree
deriving DecidableEq

/-- The node id at the root of a skeleton. -/
def QTree.rootID : QTree → ℤ
  | .leaf i => i
  | .node i _ _ _ _ => i

/-- All subtrees of a skeleton, the skeleton itself first. -/
def QTree.subtrees : QTree → List QTree
  | .leaf i => [.leaf i]
  | .node i a b c d =>
      .node i a b c d :: (a.subtrees ++ b.subtrees ++ c.subtrees ++ d.subtrees)

variable {K : Type} [LinearOrderedField K]

/-- `MatchesB db T = true` when the skeleton `T` describes the id graph of
`db`: a skeleton leaf is a row with all-sentinel `subnode`; a skeleton node
is a row carrying its four children's root ids in `subnode` and no star
(spec invariants 1–3); no id is the sentinel 0. -/
def MatchesB (db : DB K) : QTree → Bool
  | .leaf i =>
      decide (i ≠ 0) && decide ((db.nodes i).subnode = (0, 0, 0, 0))
  | .node i a b c d =>
      decide (i ≠ 0) &&
      decide ((db.nodes i).star_id = 0) &&
      decide ((db.nodes i).subnode =
        (a.rootID, b.rootID, c.rootID, d.rootID)) &&
      MatchesB db a && MatchesB db b && MatchesB db c && MatchesB db d

/-- The sum of the masses of the stars stored in the subtree a skeleton
describes: the right-hand side of claim C4. -/
def starSum (db : DB K) : QTree → K
  | .leaf i =>
      if (db.nodes i).star_id ≠ 0 then (db.stars (db.nodes i).star_id).M
      else 0
  | .node _ a b c d =>
      starSum db a + starSum db b + starSum db c + starSum db d

/-- The contribution of a child with computed center of mass `v` to its
parent's weighted average, under the source's filter: the child counts only
when BOTH components of `v` are nonzero, and its weight is its stored
`total_mass`. -/
def comWeight (db : DB K) (S : QTree) (v : K × K) : K × K × K :=
  if v.1 ≠ 0 ∧ v.2 ≠ 0 then
    ((db.nodes S.rootID).total_mass,
     v.1 * (db.nodes S.rootID).total_mass,
     v.2 * (db.nodes S.rootID).total_mass)
  else (0, 0, 0)

/-- The center of mass the source's pass computes, stated structurally over
the skeleton (amended claim C5): for a leaf, the star's position (or the
origin); for an internal node, the `total_mass`-weighted average over
EXACTLY those children whose computed center of mass has both components
nonzero. -/
def comSpec (db : DB K) : QTree → K × K
  | .leaf i =>
      if (db.nodes i).star_id = 0 then (0, 0)
      else ((db.stars (db.nodes i).star_id).C.X,
            (db.stars (db.nodes i).star_id).C.Y)
  | .node _ a b c d =>
      let wa := comWeight db a (comSpec db a)
      let wb := comWeight db b (comSpec db b)
      let wc := comWeight db c (comSpec db c)
      let wd := comWeight db d (comSpec db d)
      ((wa.2.1 + (wb.2.1 + (wc.2.1 + (wd.2.1 + 0)))) /
         (wa.1 + (wb.1 + (wc.1 + (wd.1 + 0)))),
       (wa.2.2 + (wb.2.2 + (wc.2.2 + (wd.2.2 + 0)))) /
         (wa.1 + (wb.1 + (wc.1 + (wd.1 + 0)))))

/-- The contribution of a child under the filter claim C5 literally states:
the child counts whenever its center-of-mass VECTOR is nonzero. -/
def comClaimWeight (db : DB K) (S : QTree) (v : K × K) : K × K × K :=
  if v ≠ (0, 0) then
    ((db.nodes S.rootID).total_mass,
     v.1 * (db.nodes S.rootID).total_mass,
     v.2 * (db.nodes S.rootID).total_mass)
  else (0, 0, 0)

/-- The center of mass claim C5 states, differing from `comSpec` only in the
filter: children are included when their center-of-mass vector is nonzero
(rather than requiring both components nonzero). -/
def comClaimSpec (db : DB K) : QTree → K × K
  | .leaf i =>
      if (db.nodes i).star_id = 0 then (0, 0)
      else ((db.stars (db.nodes i).star_id).C.X,
            (db.stars (db.nodes i).star_id).C.Y)
  | .node _ a b c d =>
      let wa := comClaimWeight db a (comClaimSpec db a)
      let wb := comClaimWeight db b (comClaimSpec db b)
      let wc := comClaimWeight db c (comClaimSpec db c)
      let wd := comClaimWeight db d (comClaimSpec db d)
      ((wa.2.1 + (wb.2.1 + (wc.2.1 + (wd.2.1 + 0)))) /
         (wa.1 + (wb.1 + (wc.1 + (wd.1 + 0)))),
       (wa.2.2 + (wb.2.2 + (wc.2.2 + (wd.2.2 + 0)))) /
         (wa.1 + (wb.1 + (wc.1 + (wd.1 + 0)))))

/-- What the total-mass pass preserves: the stars table and every node's
`subnode` and `star_id` columns. -/
def SameShape (db db' : DB K) : Prop :=
  db'.stars = db.stars ∧
  ∀ k, (db'.nodes k).subnode = (db.nodes k).subnode ∧
       (db'.nodes k).star_id = (db.nodes k).star_id

/-- What the center-of-mass pass preserves: `SameShape` and additionally
every node's `total_mass` column. -/
def SameShapeTM (db db' : DB K) : Prop :=
  SameShape db db' ∧
  ∀ k, (db'.nodes k).total_mass = (db.nodes k).total_mass

end TreeShape


section SpecSide

/-- The quadrant rule as the specification states it, as a function of the
star's coordinates and a center `(cx, cy)`, with the source's numeric codes
NE = 1, SE = 3, NW = 0, SW = 2. -/
def quadRule {K : Type} [LinearOrderedField K] (sx sy cx cy : K) : ℤ :=
  if sx > cx then
    if sy > cy then 1 else 3
  else
    if sy > cy then 0 else 2

end SpecSide

section ConcreteTrees

/-- An all-zero node row, the default row of the modelled schema. -/
def row0 (K : Type) [LinearOrderedField K] : NodeRow K :=
  { box_width := 0, box_center := (0, 0), depth := 0, isleaf := false,
    star_id := 0, root_id := 0, timestep := 0, subnode := (0, 0, 0, 0),
    total_mass := 0, center_of_mass := (0, 0) }

/-- An all-zero star row. -/
def star0 (K : Type) [LinearOrderedField K] : Star2D K :=
  ⟨⟨0, 0⟩, ⟨0, 0⟩, 0⟩

/-- A database holding one fresh root node (id 1): the box is the square of
width 1000 centered at the origin, as `NewTree` creates it. -/
def dbRoot : DB ℚ :=
  { nodes := fun i =>
      if i = 1 then
        { box_width := 1000, box_center := (0, 0), depth := 0, isleaf := true,
          star_id := 0, root_id := 1, timestep := 1, subnode := (0, 0, 0, 0),
          total_mass := 0, center_of_mass := (0, 0) }
      else row0 ℚ,
    nodeIDs := [1],
    nextNodeID := 2,
    stars := fun _ => star0 ℚ,
    starIDs := [],
    nextStarID := 1 }

/-- `dbRoot` after `subdivide 1`: the children get ids 2, 3, 4, 5. -/
def dbRootSub : DB ℚ := subdivide dbRoot 1

/-- A star in the geometric north-east quadrant of `dbRoot`'s root box. -/
def starNE : Star2D ℚ := ⟨⟨250, 250⟩, ⟨0, 0⟩, 1000⟩

/-- A database whose node 1 has a stored box center `(0, 10)` with distinct
coordinates, exposing the y-from-x parse slip of `getBoxCenter`. -/
def dbSkew (K : Type) [LinearOrderedField K] : DB K :=
  { nodes := fun i =>
      if i = 1 then
        { box_width := 100, box_center := (0, 10), depth := 0, isleaf := true,
          star_id := 0, root_id := 1, timestep := 1, subnode := (0, 0, 0, 0),
          total_mass := 0, center_of_mass := (0, 0) }
      else row0 K,
    nodeIDs := [1],
    nextNodeID := 2,
    stars := fun _ => star0 K,
    starIDs := [],
    nextStarID := 1 }

/-- A star at `(1, 5)`: south-east of the center `(0, 10)` geometrically, but
north-east of the pair `(0, 0)` that `getBoxCenter` actually returns. -/
def starSkew (K : Type) [LinearOrderedField K] : Star2D K :=
  ⟨⟨1, 5⟩, ⟨0, 0⟩, 1000⟩

/-- A two-star catalog used to exercise `updateStarForce`. -/
def db9 : DB ℚ :=
  { nodes := fun _ => row0 ℚ,
    nodeIDs := [],
    nextNodeID := 1,
    stars := fun i =>
      if i = 1 then ⟨⟨1, 2⟩, ⟨3, 4⟩, 5⟩
      else if i = 2 then ⟨⟨6, 7⟩, ⟨8, 9⟩, 10⟩
      else star0 ℚ,
    starIDs := [1, 2],
    nextStarID := 3 }

/-- A completely empty database. -/
def dbEmpty : DB ℚ :=
  { nodes := fun _ => row0 ℚ, nodeIDs := [], nextNodeID := 1,
    stars := fun _ => star0 ℚ, starIDs := [], nextStarID := 1 }

/-- A star at `(100, 100)` of mass 1000 over `ℚ`. -/
def starQ : Star2D ℚ := ⟨⟨100, 100⟩, ⟨0, 0⟩, 1000⟩

end ConcreteTrees

section ConcreteAggregation

/-- A subdivided tree: root 1 with children 2–5; node 2 holds star 1 at
`(5, 0)` (center of mass on the x-axis!), node 3 holds star 2 at `(3, 4)`,
nodes 4 and 5 are empty; the children's stored `total_mass` values (100,
100, 0, 0) are up to date. -/
def dbAgg : DB ℚ :=
  { nodes := fun i =>
      if i = 1 then
        { box_width := 1000, box_center := (0, 0), depth := 0,
          isleaf := false, star_id := 0, root_id := 1, timestep := 1,
          subnode := (2, 3, 4, 5), total_mass := 0,
          center_of_mass := (0, 0) }
      else if i = 2 then
        { box_width := 500, box_center := (500, 500), depth := 1,
          isleaf := true, star_id := 1, root_id := 0, timestep := 1,
          subnode := (0, 0, 0, 0), total_mass := 100,
          center_of_mass := (0, 0) }
      else if i = 3 then
        { box_width := 500, box_center := (500, -500), depth := 1,
          isleaf := true, star_id := 2, root_id := 0, timestep := 1,
          subnode := (0, 0, 0, 0), total_mass := 100,
          center_of_mass := (0, 0) }
      else if i = 4 then
        { box_width := 500, box_center := (-500, 500), depth := 1,
          isleaf := true, star_id := 0, root_id := 0, timestep := 1,
          subnode := (0, 0, 0, 0), total_mass := 0,
          center_of_mass := (0, 0) }
      else if i = 5 then
        { box_width := 500, box_center := (-500, -500), depth := 1,
          isleaf := true, star_id := 0, root_id := 0, timestep := 1,
          subnode := (0, 0, 0, 0), total_mass := 0,
          center_of_mass := (0, 0) }
      else row0 ℚ,
    nodeIDs := [1, 2, 3, 4, 5],
    nextNodeID := 6,
    stars := fun i =>
      if i = 1 then ⟨⟨5, 0⟩, ⟨0, 0⟩, 100⟩
      else if i = 2 then ⟨⟨3, 4⟩, ⟨0, 0⟩, 100⟩
      else star0 ℚ,
    starIDs := [1, 2],
    nextStarID := 3 }

/-- The skeleton of `dbAgg`. -/
def TAgg : QTree := .node 1 (.leaf 2) (.leaf 3) (.leaf 4) (.leaf 5)

/-- The result of the total-mass pass on `dbAgg` (projected out of the
`Option` so that concrete statements stay binder-free). -/
def tmResAgg : DB ℚ × ℚ :=
  (updateTotalMassNode 3 dbAgg 1).getD (dbAgg, 0)

/-- The result of the center-of-mass pass on `dbAgg`. -/
def comResAgg : DB ℚ × Vec2 ℚ :=
  (updateCenterOfMassNode 3 dbAgg 1).getD (dbAgg, ⟨0, 0⟩)

end ConcreteAggregation

section Forces

/-- Checked division: Go's float64 division returns `Inf` or `NaN` when the
divisor is zero; neither is a real number, so the model returns `none` in
that case and the exact quotient otherwise. -/
def fdiv {K : Type} [LinearOrderedField K] (a b : K) : Option K :=
  if b = 0 then none else some (a / b)

/-- `calcForce`: the pair force the source computes from star `s1` and star
`s2` with `G = 6.6726 * math.Pow(10, -11)`: the scalar
`G * (m1*m2 / distance²)` is multiplied onto the unit vector
`(s2.C - s1.C) / distance`, where `distance` is the Euclidean distance
(the source squares absolute differences). -/
noncomputable def calcForce (s1 s2 : Star2D ℝ) : Option (Vec2 ℝ) :=
  let G : ℝ := 6.6726 * (10 : ℝ) ^ (-11 : ℤ)
  let combinedMass : ℝ := s1.M * s2.M
  let d : ℝ := Real.sqrt (|s1.C.X - s2.C.X| ^ 2 + |s1.C.Y - s2.C.Y| ^ 2)
  do
    let q ← fdiv combinedMass (d ^ 2)
    let scalar := G * q
    let ux ← fdiv (s2.C.X - s1.C.X) d
    let uy ← fdiv (s2.C.Y - s1.C.Y) d
    pure ⟨ux * scalar, uy * scalar⟩

/-- The Euclidean distance between two stars, as the spec states it. -/
noncomputable def EuclidDist (s1 s2 : Star2D ℝ) : ℝ :=
  Real.sqrt ((s1.C.X - s2.C.X) ^ 2 + (s1.C.Y - s2.C.Y) ^ 2)

/-- The pair-force magnitude `G·m_a·m_b/r²` of the spec, with
`G = 6.6726e-11`. -/
noncomputable def forceMag (s1 s2 : Star2D ℝ) : ℝ :=
  6.6726e-11 * s1.M * s2.M / EuclidDist s1 s2 ^ 2

/-- Euclidean norm of a 2-d vector. -/
noncomputable def vecNorm (v : Vec2 ℝ) : ℝ :=
  Real.sqrt (v.X ^ 2 + v.Y ^ 2)

/-- The star of mass 1000 at the origin from scenario S4 of the spec. -/
def s00 : Star2D ℝ := ⟨⟨0, 0⟩, ⟨0, 0⟩, 1000⟩

/-- The star of mass 1000 at `(1, 0)` from scenario S4 of the spec. -/
def s10 : Star2D ℝ := ⟨⟨1, 0⟩, ⟨0, 0⟩, 1000⟩

/-- A star used to probe the collocated case of `calcForce`. -/
def sColl : Star2D ℝ := ⟨⟨100, 100⟩, ⟨0, 0⟩, 1000⟩

/-- `distance`: the Euclidean distance between the star and the node's
stored center of mass. -/
noncomputable def distance (star : Star2D ℝ) (db : DB ℝ) (nodeID : ℤ) : ℝ :=
  let node := getNodeCenterOfMass db nodeID
  Real.sqrt ((star.C.X - node.X) ^ 2 + (star.C.Y - node.Y) ^ 2)

/-- `calcTheta`: `d / r` with `d` the node's box width and `r` the distance
from the star to the node's center of mass; `none` models the `Inf`/`NaN`
float the source computes when `r = 0` (either way the Go comparison
`localTheta < theta` is false then, see `CalcAllForcesNode`). -/
noncomputable def calcTheta (star : Star2D ℝ) (db : DB ℝ) (nodeID : ℤ) :
    Option ℝ :=
  fdiv (getBoxWidth db nodeID) (distance star db nodeID)

mutual

/-- `CalcAllForcesNode`: the Barnes–Hut walk of the source.  When
`nodeID = 0` the Go variable `localTheta` keeps its zero initial value.  The
`localTheta < theta` branch of the source is EMPTY (the monopole
approximation is commented out), so a "far" node contributes the zero
vector; in the other branch (including the `Inf`/`NaN` case, where the Go
comparison is false) the source iterates over the four subnode ids, see
`bhFold`. -/
noncomputable def CalcAllForcesNode :
    ℕ → DB ℝ → Star2D ℝ → ℤ → ℝ → Option (Vec2 ℝ)
  | 0, _, _, _, _ => none
  | Nat.succ fuel, db, star, nodeID, theta =>
    let localTheta : Option ℝ :=
      if nodeID ≠ 0 then calcTheta star db nodeID else some 0
    let s := getSubtreeIDs db nodeID
    match localTheta with
    | some lt =>
        if lt < theta then some ⟨0, 0⟩
        else bhFold fuel db star theta [s.1, s.2.1, s.2.2.1, s.2.2.2] ⟨0, 0⟩
    | none => bhFold fuel db star theta [s.1, s.2.1, s.2.2.1, s.2.2.2] ⟨0, 0⟩

/-- The subtree loop of `CalcAllForcesNode`: for each nonzero subnode id the
source first adds the pair force against the subnode's own star (when
present and different from the probe star) and then adds the recursive
result for the subnode. -/
noncomputable def bhFold :
    ℕ → DB ℝ → Star2D ℝ → ℝ → List ℤ → Vec2 ℝ → Option (Vec2 ℝ)
  | _, _, _, _, [], f => some f
  | fuel, db, star, theta, subtreeID :: rest, f =>
    if subtreeID ≠ 0 then
      do
        let fPair ←
          (if getStarID db subtreeID ≠ 0 then
            (if GetStar db (getStarID db subtreeID) ≠ star then
              calcForce (GetStar db (getStarID db subtreeID)) star
             else some ⟨0, 0⟩)
           else some ⟨0, 0⟩)
        let fRec ← CalcAllForcesNode fuel db star subtreeID theta
        bhFold fuel db star theta rest
          ⟨f.X + fPair.X + fRec.X, f.Y + fPair.Y + fRec.Y⟩
    else bhFold fuel db star theta rest f

end

/-- A one-node tree whose root (width 1, total mass 1000, center of mass
`(3, 4)`) is "far" from the origin for `theta = 1/2`: `d/r = 1/5`. -/
noncomputable def dbC3 : DB ℝ :=
  { nodes := fun i =>
      if i = 1 then
        { box_width := 1, box_center := (0, 0), depth := 0, isleaf := true,
          star_id := 0, root_id := 1, timestep := 1, subnode := (0, 0, 0, 0),
          total_mass := 1000, center_of_mass := (3, 4) }
      else row0 ℝ,
    nodeIDs := [1],
    nextNodeID := 2,
    stars := fun _ => star0 ℝ,
    starIDs := [],
    nextStarID := 1 }

/-- The probe star of mass 1000 at the origin. -/
def probeStar : Star2D ℝ := ⟨⟨0, 0⟩, ⟨0, 0⟩, 1000⟩

/-- The pseudo-star the spec prescribes for `dbC3`'s root: positioned at the
node's center of mass, with the node's total mass. -/
def pseudoStarC3 : Star2D ℝ := ⟨⟨3, 4⟩, ⟨0, 0⟩, 1000⟩

end Forces

section ClaimC1C2C9C10

/-- Claim C1 (code bug witness): subdividing the width-1000 root centered at
the origin creates children 2–5 with half the parent's width but with centers
`(±500, ±500)`, i.e. offset from the parent's center by `box_width / 2` in
each axis, not by `box_width / 4` as the tiling invariant requires. -/
theorem c1_subdivide_offsets :
    (dbRootSub.nodes 1).subnode = (2, 3, 4, 5) ∧
    (dbRootSub.nodes 1).isleaf = false ∧
    (dbRootSub.nodes 2).box_width = (dbRoot.nodes 1).box_width / 2 ∧
    (dbRootSub.nodes 2).box_center = (500, 500) ∧
    (dbRootSub.nodes 3).box_center = (500, -500) ∧
    (dbRootSub.nodes 4).box_center = (-500, 500) ∧
    (dbRootSub.nodes 5).box_center = (-500, -500) ∧
    (500 : ℚ) ≠ (dbRoot.nodes 1).box_width / 4 := by
  norm_num [dbRootSub, subdivide, dbRoot, newNode, setNode, getBoxWidth,
    getBoxCenter, getNodeDepth, getTimestepNode, row0]

/-- Claim C2 (code bug witness): on the subdivided root, the star `(250, 250)`
lies in the geometric north-east quadrant and `quadrant` returns its NE code 1,
but `getQuadrantNodeID` maps code 1 to node 3, the child `subdivide` created at
`(+x, -y)` (the south-east child), not node 2, the north-east child at
`(+x, +y)`. -/
theorem c2_quadrant_routing :
    quadrant dbRootSub starNE 1 = 1 ∧
    getQuadrantNodeID dbRootSub 1 (quadrant dbRootSub starNE 1) = 3 ∧
    (dbRootSub.nodes 2).box_center = (500, 500) ∧
    (dbRootSub.nodes 3).box_center = (500, -500) ∧
    getQuadrantNodeID dbRootSub 1 (quadrant dbRootSub starNE 1) ≠ 2 := by
  norm_num [dbRootSub, subdivide, dbRoot, newNode, setNode, getBoxWidth,
    getBoxCenter, getNodeDepth, getTimestepNode, row0, quadrant,
    getQuadrantNodeID, starNE]

/-- Claim C9: `updateStarForce` writes the force into the star's velocity
slots, leaves the star's position and mass unchanged, and leaves every other
star and the whole nodes table unchanged. -/
theorem c9_updateStarForce {K : Type} [LinearOrderedField K] (db : DB K)
    (starID : ℤ) (force : Vec2 K) :
    ((updateStarForce db starID force).1.stars starID).C = (db.stars starID).C ∧
    ((updateStarForce db starID force).1.stars starID).M = (db.stars starID).M ∧
    ((updateStarForce db starID force).1.stars starID).V = force ∧
    (∀ j, j ≠ starID → (updateStarForce db starID force).1.stars j = db.stars j) ∧
    (updateStarForce db starID force).1.nodes = db.nodes := by
  obtain ⟨fx, fy⟩ := force
  refine ⟨by simp [updateStarForce], by simp [updateStarForce],
    by simp [updateStarForce], fun j hj => by simp [updateStarForce, hj], rfl⟩

/-- Witness for C9 at a concrete catalog: star 1 gets velocity `(42, 43)` with
its position kept, and star 2 is untouched. -/
theorem c9_updateStarForce_witness :
    ((updateStarForce db9 1 ⟨42, 43⟩).1.stars 1).C = (db9.stars 1).C ∧
    ((updateStarForce db9 1 ⟨42, 43⟩).1.stars 1).V = ⟨42, 43⟩ ∧
    (updateStarForce db9 1 ⟨42, 43⟩).1.stars 2 = db9.stars 2 :=
  ⟨(c9_updateStarForce db9 1 ⟨42, 43⟩).1,
   (c9_updateStarForce db9 1 ⟨42, 43⟩).2.2.1,
   (c9_updateStarForce db9 1 ⟨42, 43⟩).2.2.2.1 2 (by decide)⟩

/-- Claim C10: the box-center accessor returns a pair whose two components are
both the stored x-coordinate, so `quadrant` follows the quadrant rule applied
to the center `(cx, cx)` — for a node whose stored center is `(0, 10)` the
star `(1, 5)` (geometrically SE, rule code 3) is routed NE (code 1) because
its y-coordinate is compared against the x-coordinate 0. -/
theorem c10_getBoxCenter_both_x {K : Type} [LinearOrderedField K] :
    (∀ (db : DB K) (nodeID : ℤ),
      getBoxCenter db nodeID =
        ((db.nodes nodeID).box_center.1, (db.nodes nodeID).box_center.1)) ∧
    (∀ (db : DB K) (star : Star2D K) (nodeID : ℤ),
      quadrant db star nodeID =
        quadRule star.C.X star.C.Y (db.nodes nodeID).box_center.1
          (db.nodes nodeID).box_center.1) ∧
    ((dbSkew K).nodes 1).box_center = (0, 10) ∧
    quadrant (dbSkew K) (starSkew K) 1 = 1 ∧
    quadRule ((starSkew K).C.X) ((starSkew K).C.Y)
      (((dbSkew K).nodes 1).box_center.1)
      (((dbSkew K).nodes 1).box_center.2) = 3 := by
  refine ⟨fun db nodeID => rfl, fun db star nodeID => rfl, ?_, ?_, ?_⟩ <;>
    norm_num [dbSkew, starSkew, quadrant, quadRule, getBoxCenter, row0]

end ClaimC1C2C9C10

section ForceLemmas

/-- The Euclidean distance of two stars at distinct positions is positive. -/
theorem EuclidDist_pos (s1 s2 : Star2D ℝ) (hne : s1.C ≠ s2.C) :
    0 < EuclidDist s1 s2 := by
  have hne' : s1.C.X ≠ s2.C.X ∨ s1.C.Y ≠ s2.C.Y := by
    by_contra h
    push_neg at h
    exact hne (Vec2.ext h.1 h.2)
  have hpos : 0 < (s1.C.X - s2.C.X) ^ 2 + (s1.C.Y - s2.C.Y) ^ 2 := by
    rcases hne' with h | h
    · have hdx : s1.C.X - s2.C.X ≠ 0 := sub_ne_zero.mpr h
      have h2x : 0 < (s1.C.X - s2.C.X) ^ 2 :=
        (sq_nonneg _).lt_of_ne (Ne.symm (pow_ne_zero 2 hdx))
      nlinarith [sq_nonneg (s1.C.Y - s2.C.Y)]
    · have hdy : s1.C.Y - s2.C.Y ≠ 0 := sub_ne_zero.mpr h
      have h2y : 0 < (s1.C.Y - s2.C.Y) ^ 2 :=
        (sq_nonneg _).lt_of_ne (Ne.symm (pow_ne_zero 2 hdy))
      nlinarith [sq_nonneg (s1.C.X - s2.C.X)]
  exact Real.sqrt_pos.mpr hpos

/-- Closed form of `calcForce` for stars at distinct positions: the unit
vector from `s1` toward `s2` scaled by the magnitude `G·m1·m2/r²`. -/
theorem calcForce_closed_form (s1 s2 : Star2D ℝ) (hne : s1.C ≠ s2.C) :
    calcForce s1 s2 =
      some ⟨(s2.C.X - s1.C.X) / EuclidDist s1 s2 * forceMag s1 s2,
            (s2.C.Y - s1.C.Y) / EuclidDist s1 s2 * forceMag s1 s2⟩ := by
  have hrne : EuclidDist s1 s2 ≠ 0 := ne_of_gt (EuclidDist_pos s1 s2 hne)
  have habs : Real.sqrt (|s1.C.X - s2.C.X| ^ 2 + |s1.C.Y - s2.C.Y| ^ 2) =
      EuclidDist s1 s2 := by
    rw [sq_abs, sq_abs]; rfl
  have hG : (6.6726 : ℝ) * (10 : ℝ) ^ (-11 : ℤ) = 6.6726e-11 := by norm_num
  rw [calcForce]
  simp only [habs, fdiv, hG]
  rw [if_neg (pow_ne_zero 2 hrne)]
  simp only [if_neg hrne]
  exact congrArg some (Vec2.ext
    (by rw [forceMag]; ring)
    (by rw [forceMag]; ring))

/-- The closed-form force vector has Euclidean norm `forceMag`. -/
theorem calcForce_norm (s1 s2 : Star2D ℝ) (hne : s1.C ≠ s2.C)
    (h1 : 0 ≤ s1.M) (h2 : 0 ≤ s2.M) :
    vecNorm ⟨(s2.C.X - s1.C.X) / EuclidDist s1 s2 * forceMag s1 s2,
             (s2.C.Y - s1.C.Y) / EuclidDist s1 s2 * forceMag s1 s2⟩ =
      forceMag s1 s2 := by
  have hr : 0 < EuclidDist s1 s2 := EuclidDist_pos s1 s2 hne
  have hrne : EuclidDist s1 s2 ≠ 0 := ne_of_gt hr
  have hpos : 0 ≤ (s1.C.X - s2.C.X) ^ 2 + (s1.C.Y - s2.C.Y) ^ 2 := by positivity
  have hr2 : EuclidDist s1 s2 ^ 2 =
      (s1.C.X - s2.C.X) ^ 2 + (s1.C.Y - s2.C.Y) ^ 2 :=
    Real.sq_sqrt hpos
  have hmag : 0 ≤ forceMag s1 s2 :=
    div_nonneg (mul_nonneg (mul_nonneg (by norm_num) h1) h2) (sq_nonneg _)
  rw [vecNorm]
  have key : ((s2.C.X - s1.C.X) / EuclidDist s1 s2 * forceMag s1 s2) ^ 2 +
      ((s2.C.Y - s1.C.Y) / EuclidDist s1 s2 * forceMag s1 s2) ^ 2 =
      forceMag s1 s2 ^ 2 := by
    have expand : ((s2.C.X - s1.C.X) / EuclidDist s1 s2 * forceMag s1 s2) ^ 2 +
        ((s2.C.Y - s1.C.Y) / EuclidDist s1 s2 * forceMag s1 s2) ^ 2 =
        ((s1.C.X - s2.C.X) ^ 2 + (s1.C.Y - s2.C.Y) ^ 2) / EuclidDist s1 s2 ^ 2 *
          forceMag s1 s2 ^ 2 := by
      field_simp
      ring
    rw [expand, ← hr2, div_self (pow_ne_zero 2 hrne), one_mul]
  rw [key, Real.sqrt_sq hmag]

end ForceLemmas

section ClaimC6C7

/-- Claim C6: for stars at distinct positions with nonnegative masses,
`calcForce s1 s2` returns the vector of magnitude `G·m1·m2/r²`
(`G = 6.6726e-11`, `r` the Euclidean distance) directed along the unit
vector from the first argument's position toward the second's. -/
theorem c6_calcForce_magnitude_direction (s1 s2 : Star2D ℝ)
    (hne : s1.C ≠ s2.C) (h1 : 0 ≤ s1.M) (h2 : 0 ≤ s2.M) :
    calcForce s1 s2 =
      some ⟨(s2.C.X - s1.C.X) / EuclidDist s1 s2 * forceMag s1 s2,
            (s2.C.Y - s1.C.Y) / EuclidDist s1 s2 * forceMag s1 s2⟩ ∧
    vecNorm ⟨(s2.C.X - s1.C.X) / EuclidDist s1 s2 * forceMag s1 s2,
             (s2.C.Y - s1.C.Y) / EuclidDist s1 s2 * forceMag s1 s2⟩ =
      forceMag s1 s2 :=
  ⟨calcForce_closed_form s1 s2 hne, calcForce_norm s1 s2 hne h1 h2⟩

/-- Witness for C6 at scenario S4: two stars of mass 1000 at `(0,0)` and
`(1,0)` give the force `(6.6726e-5, 0)` on the first star. -/
theorem c6_calcForce_witness :
    s00.C ≠ s10.C ∧ calcForce s00 s10 = some ⟨6.6726e-5, 0⟩ := by
  have hne : s00.C ≠ s10.C := by
    simp only [s00, s10, ne_eq, Vec2.mk.injEq, not_and]
    norm_num
  have h := c6_calcForce_magnitude_direction s00 s10 hne
    (by norm_num [s00]) (by norm_num [s10])
  refine ⟨hne, ?_⟩
  rw [h.1]
  have hd : EuclidDist s00 s10 = 1 := by
    rw [EuclidDist]
    norm_num [s00, s10]
  rw [forceMag, hd]
  norm_num [s00, s10]

/-- Claim C7 (code bug witness): for two stars at exactly the same position
the pair-force computation divides by `r² = 0`; in the model the checked
division returns `none` (Go: `Inf`/`NaN` components), not the zero vector,
and no `Collocated` condition exists in the source. -/
theorem c7_calcForce_collocated : calcForce sColl sColl = none := by
  norm_num [calcForce, fdiv, sColl, Real.sqrt_zero]

end ClaimC6C7

section ClaimC3

/-- Claim C3 (code bug witness): at `dbC3`'s root the opening-angle test
gives `local_theta = d/r = 1/5 < theta = 1/2`, yet the walk returns the zero
vector — the "far" branch of the source is empty — whereas the monopole
pseudo-star force the claim prescribes (`calcForce` against the star of mass
`total_mass = 1000` placed at the node's center of mass `(3, 4)`) is
nonzero. -/
theorem c3_far_branch_contributes_nothing :
    CalcAllForcesNode 1 dbC3 probeStar 1 (1 / 2) = some ⟨0, 0⟩ ∧
    calcForce probeStar pseudoStarC3 ≠ some ⟨0, 0⟩ := by
  constructor
  · have hdist : distance probeStar dbC3 1 = 5 := by
      rw [distance]
      norm_num [getNodeCenterOfMass, dbC3, probeStar]
      rw [show (25 : ℝ) = 5 ^ 2 by norm_num,
        Real.sqrt_sq (by norm_num : (0 : ℝ) ≤ 5)]
    have hw : getBoxWidth dbC3 1 = 1 := by norm_num [getBoxWidth, dbC3]
    have hth : calcTheta probeStar dbC3 1 = some (1 / 5) := by
      rw [calcTheta, hdist, hw]
      norm_num [fdiv]
    show CalcAllForcesNode (Nat.succ 0) dbC3 probeStar 1 (1 / 2) = some ⟨0, 0⟩
    rw [CalcAllForcesNode]
    norm_num [hth]
  · have hne : probeStar.C ≠ pseudoStarC3.C := by
      simp only [probeStar, pseudoStarC3, ne_eq, Vec2.mk.injEq, not_and]
      norm_num
    rw [calcForce_closed_form probeStar pseudoStarC3 hne]
    have hd : EuclidDist probeStar pseudoStarC3 = 5 := by
      rw [EuclidDist]
      norm_num [probeStar, pseudoStarC3]
      rw [show (25 : ℝ) = 5 ^ 2 by norm_num,
        Real.sqrt_sq (by norm_num : (0 : ℝ) ≤ 5)]
    have hx : (pseudoStarC3.C.X - probeStar.C.X) / EuclidDist probeStar pseudoStarC3 *
        forceMag probeStar pseudoStarC3 ≠ 0 := by
      rw [forceMag, hd]
      norm_num [probeStar, pseudoStarC3]
    intro hsome
    exact hx (congrArg Vec2.X (Option.some.inj hsome))

end ClaimC3


section ClaimC8

/-- Claim C8 (amended): when no tree with the requested `index` exists,
`InsertStar` creates a tree whose root has width 1000 but keys it by
`max(existing root_id) + 1`, NOT by the requested index; when the requested
index equals `max + 1` the post-`NewTree` lookup finds the new root, the star
is written into that (empty leaf) root and the new star id is returned.  For
any other fresh index the lookup fails (see the counterexample). -/
theorem c8_insertStar_new_tree {K : Type} [LinearOrderedField K] (fuel : ℕ)
    (db : DB K) (star : Star2D K) (index : ℤ)
    (hno : ∀ i ∈ db.nodeIDs, (db.nodes i).root_id ≠ index)
    (hmax : index = maxRootID db + 1) :
    InsertStar (Nat.succ fuel) db star index =
      some (directInsert (NewTree (insertIntoStars db star).1 1000)
        db.nextStarID db.nextNodeID, db.nextStarID) ∧
    ((directInsert (NewTree (insertIntoStars db star).1 1000)
        db.nextStarID db.nextNodeID).nodes db.nextNodeID).box_width = 1000 ∧
    ((directInsert (NewTree (insertIntoStars db star).1 1000)
        db.nextStarID db.nextNodeID).nodes db.nextNodeID).root_id = index ∧
    ((directInsert (NewTree (insertIntoStars db star).1 1000)
        db.nextStarID db.nextNodeID).nodes db.nextNodeID).star_id =
      db.nextStarID ∧
    (directInsert (NewTree (insertIntoStars db star).1 1000)
        db.nextStarID db.nextNodeID).stars db.nextStarID = star := by
  have hmr : maxRootID (insertIntoStars db star).1 = maxRootID db := rfl
  have hnid : (insertIntoStars db star).1.nextNodeID = db.nextNodeID := rfl
  have hsid : (insertIntoStars db star).2 = db.nextStarID := rfl
  have hfind1 : getRootNodeID (insertIntoStars db star).1 index = none := by
    rw [getRootNodeID]
    apply List.find?_eq_none.mpr
    intro i hi
    simpa using hno i hi
  have hcons : (NewTree (insertIntoStars db star).1 1000).nodeIDs =
      db.nextNodeID :: db.nodeIDs := rfl
  have hfind2 : getRootNodeID (NewTree (insertIntoStars db star).1 1000)
      index = some db.nextNodeID := by
    rw [getRootNodeID, hcons, List.find?_cons_of_pos]
    simp [NewTree, hmr, hnid, ← hmax]
  have hinsert : insertIntoTree (Nat.succ fuel)
      (NewTree (insertIntoStars db star).1 1000) db.nextStarID
      db.nextNodeID =
      some (directInsert (NewTree (insertIntoStars db star).1 1000)
        db.nextStarID db.nextNodeID) := by
    rw [insertIntoTree]
    have hcs : containsStar (NewTree (insertIntoStars db star).1 1000)
        db.nextNodeID = false := by
      simp [containsStar, NewTree, hnid]
    have hlf : isLeaf (NewTree (insertIntoStars db star).1 1000)
        db.nextNodeID = true := by
      simp [isLeaf, NewTree, hnid]
    rw [hcs, hlf]
    simp
  refine ⟨?_, ?_, ?_, ?_, ?_⟩
  · rw [InsertStar]
    simp only [hfind1, hfind2, hsid, if_true, hinsert, Option.some_bind]
    rfl
  · simp [directInsert, setNode, NewTree, hnid]
  · simp [directInsert, setNode, NewTree, hnid]
    rw [hmr, ← hmax]
  · simp [directInsert, setNode, NewTree, hnid]
  · simp [directInsert, setNode, NewTree, insertIntoStars]

/-- Witness for the amended C8: inserting into the empty database with the
requested index `1 = max(root_id) + 1` creates root node 1 of width 1000
keyed by root id 1, stores star 1 in it and returns star id 1. -/
theorem c8_insertStar_new_tree_witness :
    InsertStar 1 dbEmpty starQ 1 =
      some (directInsert (NewTree (insertIntoStars dbEmpty starQ).1 1000)
        1 1, 1) ∧
    ((directInsert (NewTree (insertIntoStars dbEmpty starQ).1 1000)
        1 1).nodes 1).box_width = 1000 ∧
    ((directInsert (NewTree (insertIntoStars dbEmpty starQ).1 1000)
        1 1).nodes 1).root_id = 1 ∧
    ((directInsert (NewTree (insertIntoStars dbEmpty starQ).1 1000)
        1 1).nodes 1).star_id = 1 ∧
    (directInsert (NewTree (insertIntoStars dbEmpty starQ).1 1000)
        1 1).stars 1 = starQ :=
  c8_insertStar_new_tree 0 dbEmpty starQ 1 (by simp [dbEmpty]) (by rfl)

/-- Claim C8 counterexample: inserting into the nonexistent tree 5 of the
empty database aborts with no star id returned: `NewTree` keys the created
root by `max(root_id) + 1 = 1`, not by the requested index 5, so the
subsequent `getRootNodeID 5` lookup fails. -/
theorem c8_insertStar_wrong_index : InsertStar 9 dbEmpty starQ 5 = none := by
  rfl

end ClaimC8

section AggregationLemmas

variable {K : Type} [LinearOrderedField K]

/-- `SameShape` is reflexive. -/
theorem sameShape_refl (db : DB K) : SameShape db db :=
  ⟨rfl, fun _ => ⟨rfl, rfl⟩⟩

/-- `SameShape` is transitive. -/
theorem sameShape_trans {db1 db2 db3 : DB K}
    (h : SameShape db1 db2) (h' : SameShape db2 db3) : SameShape db1 db3 :=
  ⟨h'.1.trans h.1, fun k =>
    ⟨(h'.2 k).1.trans (h.2 k).1, (h'.2 k).2.trans (h.2 k).2⟩⟩

/-- Writing a `total_mass` column preserves the shape. -/
theorem sameShape_writeTotalMass (db : DB K) (n : ℤ) (m : K) :
    SameShape db (writeTotalMass db n m) := by
  refine ⟨rfl, fun k => ?_⟩
  by_cases hk : k = n <;>
    simp [writeTotalMass, setNode, hk]

/-- `SameShapeTM` is reflexive. -/
theorem sameShapeTM_refl (db : DB K) : SameShapeTM db db :=
  ⟨sameShape_refl db, fun _ => rfl⟩

/-- `SameShapeTM` is transitive. -/
theorem sameShapeTM_trans {db1 db2 db3 : DB K}
    (h : SameShapeTM db1 db2) (h' : SameShapeTM db2 db3) :
    SameShapeTM db1 db3 :=
  ⟨sameShape_trans h.1 h'.1, fun k => (h'.2 k).trans (h.2 k)⟩

/-- Writing a `center_of_mass` column preserves shape and total masses. -/
theorem sameShapeTM_writeCenterOfMass (db : DB K) (n : ℤ) (v : Vec2 K) :
    SameShapeTM db (writeCenterOfMass db n v) := by
  refine ⟨⟨rfl, fun k => ?_⟩, fun k => ?_⟩ <;>
    · by_cases hk : k = n <;>
        simp [writeCenterOfMass, setNode, hk]

/-- `MatchesB` depends only on the preserved shape. -/
theorem matchesB_congr {db db' : DB K} (h : SameShape db db') :
    ∀ T : QTree, MatchesB db' T = MatchesB db T := by
  intro T
  induction T with
  | leaf i => simp [MatchesB, (h.2 i).1]
  | node i a b c d iha ihb ihc ihd =>
      simp [MatchesB, (h.2 i).1, (h.2 i).2, iha, ihb, ihc, ihd]

/-- `starSum` depends only on the preserved shape. -/
theorem starSum_congr {db db' : DB K} (h : SameShape db db') :
    ∀ T : QTree, starSum db' T = starSum db T := by
  intro T
  induction T with
  | leaf i => simp [starSum, (h.2 i).2, h.1]
  | node i a b c d iha ihb ihc ihd => simp [starSum, iha, ihb, ihc, ihd]

/-- A skeleton matched by the database never has the sentinel root id 0. -/
theorem rootID_ne_zero {db : DB K} {T : QTree}
    (h : MatchesB db T = true) : T.rootID ≠ 0 := by
  cases T <;>
    · simp only [MatchesB, Bool.and_eq_true, decide_eq_true_eq] at h
      first
        | exact h.1
        | exact h.1.1.1.1.1.1

/-- Every skeleton is among its own subtrees. -/
theorem self_mem_subtrees (T : QTree) : T ∈ T.subtrees := by
  cases T <;> simp [QTree.subtrees]

/-- `MatchesB` descends to subtrees. -/
theorem matchesB_subtrees {db : DB K} :
    ∀ {T : QTree}, MatchesB db T = true →
      ∀ S ∈ T.subtrees, MatchesB db S = true := by
  intro T
  induction T with
  | leaf i =>
      intro h S hS
      simp only [QTree.subtrees, List.mem_singleton] at hS
      exact hS ▸ h
  | node i a b c d iha ihb ihc ihd =>
      intro h S hS
      simp only [MatchesB, Bool.and_eq_true] at h
      obtain ⟨⟨⟨⟨⟨⟨h0, hstar⟩, hsub⟩, ha⟩, hb⟩, hc⟩, hd⟩ := h
      simp only [QTree.subtrees, List.mem_cons, List.mem_append] at hS
      rcases hS with rfl | ((hS | hS) | hS) | hS
      · simp only [MatchesB, Bool.and_eq_true]
        exact ⟨⟨⟨⟨⟨⟨h0, hstar⟩, hsub⟩, ha⟩, hb⟩, hc⟩, hd⟩
      · exact iha ha S hS
      · exact ihb hb S hS
      · exact ihc hc S hS
      · exact ihd hd S hS

/-- Skeleton matching is unique: the database's id graph determines the
skeleton below any root id. -/
theorem matchesB_unique {db : DB K} :
    ∀ S S' : QTree, MatchesB db S = true → MatchesB db S' = true →
      S.rootID = S'.rootID → S = S' := by
  intro S
  induction S with
  | leaf i =>
      intro S' h h' hr
      cases S' with
      | leaf j => simpa [QTree.rootID] using hr
      | node j a' b' c' d' =>
          exfalso
          simp only [QTree.rootID] at hr
          subst hr
          simp only [MatchesB, Bool.and_eq_true, decide_eq_true_eq] at h h'
          have ha' := rootID_ne_zero h'.1.1.1.2
          have htup : (a'.rootID, b'.rootID, c'.rootID, d'.rootID) =
              ((0 : ℤ), (0 : ℤ), (0 : ℤ), (0 : ℤ)) :=
            h'.1.1.1.1.2.symm.trans h.2
          simp only [Prod.mk.injEq] at htup
          exact ha' htup.1
  | node i a b c d iha ihb ihc ihd =>
      intro S' h h' hr
      cases S' with
      | leaf j =>
          exfalso
          simp only [QTree.rootID] at hr
          subst hr
          simp only [MatchesB, Bool.and_eq_true, decide_eq_true_eq] at h h'
          have ha := rootID_ne_zero h.1.1.1.2
          have htup : (a.rootID, b.rootID, c.rootID, d.rootID) =
              ((0 : ℤ), (0 : ℤ), (0 : ℤ), (0 : ℤ)) :=
            h.1.1.1.1.2.symm.trans h'.2
          simp only [Prod.mk.injEq] at htup
          exact ha htup.1
      | node j a' b' c' d' =>
          simp only [QTree.rootID] at hr
          subst hr
          simp only [MatchesB, Bool.and_eq_true, decide_eq_true_eq] at h h'
          have hsub := h.1.1.1.1.2.symm.trans h'.1.1.1.1.2
          simp only [Prod.mk.injEq] at hsub
          obtain ⟨hra, hrb, hrc, hrd⟩ := hsub
          have ea := iha a' h.1.1.1.2 h'.1.1.1.2 hra
          have eb := ihb b' h.1.1.2 h'.1.1.2 hrb
          have ec := ihc c' h.1.2 h'.1.2 hrc
          have ed := ihd d' h.2 h'.2 hrd
          rw [ea, eb, ec, ed]

end AggregationLemmas

section TotalMassLemmas

variable {K : Type} [LinearOrderedField K]

/-- A value written by one child's pass survives a later sibling's pass: the
later pass either leaves the id untouched or rewrites it with the same
subtree sum, because skeleton matching is unique. -/
theorem starSum_carry {db1 db2 : DB K} {B S : QTree} {V : K}
    (hmB : MatchesB db1 B = true) (hmS : MatchesB db1 S = true)
    (hV : starSum db1 S = V)
    (hstored : (db1.nodes S.rootID).total_mass = V)
    (hP4 : ∀ S' ∈ B.subtrees, (db2.nodes S'.rootID).total_mass = starSum db1 S')
    (hframe : ∀ k, (∀ S' ∈ B.subtrees, S'.rootID ≠ k) →
      (db2.nodes k).total_mass = (db1.nodes k).total_mass) :
    (db2.nodes S.rootID).total_mass = V := by
  by_cases hcov : ∀ S' ∈ B.subtrees, S'.rootID ≠ S.rootID
  · rw [hframe S.rootID hcov, hstored]
  · push_neg at hcov
    obtain ⟨S', hS', hroot⟩ := hcov
    have hmS' := matchesB_subtrees hmB S' hS'
    have hSS : S' = S := matchesB_unique S' S hmS' hmS hroot
    calc (db2.nodes S.rootID).total_mass
        = (db2.nodes S'.rootID).total_mass := by rw [hroot]
      _ = starSum db1 S' := hP4 S' hS'
      _ = V := by rw [hSS, hV]

/-- Main lemma for claim C4: a successful run of `updateTotalMassNode` on a
matched root returns the subtree star-mass sum, changes only `total_mass`
columns, stores at every subtree root its own star-mass sum, and leaves
every other row's `total_mass` unchanged. -/
theorem updateTotalMassNode_ml :
    ∀ (T : QTree) (fuel : ℕ) (db db' : DB K) (m : K),
      MatchesB db T = true →
      updateTotalMassNode fuel db T.rootID = some (db', m) →
      m = starSum db T ∧ SameShape db db' ∧
      (∀ S ∈ T.subtrees, (db'.nodes S.rootID).total_mass = starSum db S) ∧
      (∀ k, (∀ S ∈ T.subtrees, S.rootID ≠ k) →
        (db'.nodes k).total_mass = (db.nodes k).total_mass) := by
  intro T
  induction T with
  | leaf i =>
      intro fuel db db' m hm hrun
      match fuel with
      | 0 => simp [updateTotalMassNode] at hrun
      | Nat.succ f =>
        simp only [MatchesB, Bool.and_eq_true, decide_eq_true_eq] at hm
        rw [updateTotalMassNode] at hrun
        simp only [QTree.rootID] at hrun
        rw [hm.2] at hrun
        simp only [tmFold, ne_eq, not_true_eq_false, if_false, ite_not,
          Option.some_bind] at hrun
        simp only [Option.pure_def, Option.bind_eq_bind, Option.some_bind,
          Option.some.injEq, Prod.mk.injEq] at hrun
        obtain ⟨hdb', hm'⟩ := hrun
        subst hdb'
        subst hm'
        refine ⟨?_, sameShape_writeTotalMass db i _, ?_, ?_⟩
        · simp [starSum, getStarID, getStarMass]
        · intro S hS
          simp only [QTree.subtrees, List.mem_singleton] at hS
          subst hS
          simp [writeTotalMass, setNode, starSum, getStarID, getStarMass,
            QTree.rootID]
        · intro k hk
          simp only [QTree.subtrees, List.mem_singleton, forall_eq,
            QTree.rootID] at hk
          simp [writeTotalMass, setNode, Ne.symm hk]
  | node i a b c d iha ihb ihc ihd =>
      intro fuel db db' m hm hrun
      match fuel with
      | 0 => simp [updateTotalMassNode] at hrun
      | Nat.succ f =>
        have hmp := hm
        simp only [MatchesB, Bool.and_eq_true, decide_eq_true_eq] at hmp
        obtain ⟨⟨⟨⟨⟨⟨h0, hstar⟩, hsub⟩, hma⟩, hmb⟩, hmc⟩, hmd⟩ := hmp
        rw [updateTotalMassNode] at hrun
        simp only [QTree.rootID] at hrun
        have hlist : [(db.nodes i).subnode.1, (db.nodes i).subnode.2.1,
            (db.nodes i).subnode.2.2.1, (db.nodes i).subnode.2.2.2] =
            [a.rootID, b.rootID, c.rootID, d.rootID] := by rw [hsub]
        rw [hlist] at hrun
        cases hfold : tmFold (updateTotalMassNode f) db i [a.rootID, b.rootID, c.rootID, d.rootID] with
        | none =>
            rw [hfold] at hrun
            simp at hrun
        | some r =>
            rw [hfold] at hrun
            simp only [Option.pure_def, Option.bind_eq_bind, Option.some_bind,
              Option.some.injEq, Prod.mk.injEq] at hrun
            obtain ⟨hdb', hm'⟩ := hrun
            rw [tmFold, if_pos (rootID_ne_zero hma)] at hfold
            cases h1 : updateTotalMassNode f db a.rootID with
            | none => rw [h1] at hfold; simp at hfold
            | some r1 =>
            obtain ⟨db1, m1⟩ := r1
            rw [h1] at hfold
            simp only [Option.pure_def, Option.bind_eq_bind,
              Option.some_bind] at hfold
            rw [tmFold, if_pos (rootID_ne_zero hmb)] at hfold
            cases h2 : updateTotalMassNode f db1 b.rootID with
            | none => rw [h2] at hfold; simp at hfold
            | some r2 =>
            obtain ⟨db2, m2⟩ := r2
            rw [h2] at hfold
            simp only [Option.pure_def, Option.bind_eq_bind,
              Option.some_bind] at hfold
            rw [tmFold, if_pos (rootID_ne_zero hmc)] at hfold
            cases h3 : updateTotalMassNode f db2 c.rootID with
            | none => rw [h3] at hfold; simp at hfold
            | some r3 =>
            obtain ⟨db3, m3⟩ := r3
            rw [h3] at hfold
            simp only [Option.pure_def, Option.bind_eq_bind,
              Option.some_bind] at hfold
            rw [tmFold, if_pos (rootID_ne_zero hmd)] at hfold
            cases h4 : updateTotalMassNode f db3 d.rootID with
            | none => rw [h4] at hfold; simp at hfold
            | some r4 =>
            obtain ⟨db4, m4⟩ := r4
            rw [h4] at hfold
            simp only [Option.pure_def, Option.bind_eq_bind, Option.some_bind,
              tmFold, Option.some.injEq] at hfold
            -- hfold : (db4, m1 + (m2 + (m3 + (m4 + 0)))) = r
            have ML1 := iha f db db1 m1 hma h1
            have hs01 : SameShape db db1 := ML1.2.1
            have hm1b : MatchesB db1 b = true := by
              rw [matchesB_congr hs01]; exact hmb
            have ML2 := ihb f db1 db2 m2 hm1b h2
            have hs12 : SameShape db1 db2 := ML2.2.1
            have hs02 : SameShape db db2 := sameShape_trans hs01 hs12
            have hm2c : MatchesB db2 c = true := by
              rw [matchesB_congr hs02]; exact hmc
            have ML3 := ihc f db2 db3 m3 hm2c h3
            have hs23 : SameShape db2 db3 := ML3.2.1
            have hs03 : SameShape db db3 := sameShape_trans hs02 hs23
            have hm3d : MatchesB db3 d = true := by
              rw [matchesB_congr hs03]; exact hmd
            have ML4 := ihd f db3 db4 m4 hm3d h4
            have hs34 : SameShape db3 db4 := ML4.2.1
            have hs04 : SameShape db db4 := sameShape_trans hs03 hs34
            have hv1 : m1 = starSum db a := ML1.1
            have hv2 : m2 = starSum db b := by
              rw [ML2.1, starSum_congr hs01]
            have hv3 : m3 = starSum db c := by
              rw [ML3.1, starSum_congr hs02]
            have hv4 : m4 = starSum db d := by
              rw [ML4.1, starSum_congr hs03]
            have hr : r = (db4, m1 + (m2 + (m3 + (m4 + 0)))) := hfold.symm
            have hmsum : m = m1 + (m2 + (m3 + (m4 + 0))) := by
              rw [← hm', hr]
            have hdb'w : db' = writeTotalMass db4 i (m1 + (m2 + (m3 + (m4 + 0)))) := by
              rw [← hdb', hr]
            have hmeq : m = starSum db (QTree.node i a b c d) := by
              rw [hmsum, hv1, hv2, hv3, hv4, starSum]
              ring
            have hroots : (QTree.node i a b c d).rootID = i := rfl
            -- helper: the final parent write
            have hwrite_at : ∀ k, k ≠ i →
                ((writeTotalMass db4 i (m1 + (m2 + (m3 + (m4 + 0))))).nodes
                  k).total_mass = (db4.nodes k).total_mass := by
              intro k hk
              simp [writeTotalMass, setNode, hk]
            have hwrite_self :
                ((writeTotalMass db4 i (m1 + (m2 + (m3 + (m4 + 0))))).nodes
                  i).total_mass = m1 + (m2 + (m3 + (m4 + 0))) := by
              simp [writeTotalMass, setNode]
            refine ⟨hmeq, ?_, ?_, ?_⟩
            · rw [hdb'w]
              exact sameShape_trans hs04 (sameShape_writeTotalMass db4 i _)
            · -- the stored values
              intro S hS
              simp only [QTree.subtrees, List.mem_cons, List.mem_append] at hS
              have hfin : ∀ V, MatchesB db S = true → starSum db S = V →
                  (db4.nodes S.rootID).total_mass = V →
                  (db'.nodes S.rootID).total_mass = starSum db S := by
                intro V hmS hVS hst4
                rw [hdb'w]
                by_cases hiS : S.rootID = i
                · have hST : S = QTree.node i a b c d :=
                    matchesB_unique S (QTree.node i a b c d) hmS hm (by rw [hiS, hroots])
                  rw [hiS, hwrite_self, hST]
                  rw [hST] at hVS
                  rw [starSum]
                  rw [hv1, hv2, hv3, hv4] at hmsum
                  have := hmeq
                  rw [hmsum] at this
                  rw [starSum] at this
                  linarith [this]
                · rw [hwrite_at S.rootID hiS, hst4, hVS]
              rcases hS with rfl | ((hSa | hSb) | hSc) | hSd
              · -- S is the whole tree
                rw [hdb'w, hroots, hwrite_self, starSum]
                rw [hv1, hv2, hv3, hv4] at hmsum
                rw [hmsum] at hmeq
                rw [starSum] at hmeq
                linarith [hmeq]
              · have hmS : MatchesB db S = true := matchesB_subtrees hma S hSa
                have hst1 : (db1.nodes S.rootID).total_mass = starSum db S :=
                  ML1.2.2.1 S hSa
                have hst2 : (db2.nodes S.rootID).total_mass = starSum db S :=
                  starSum_carry hm1b (by rw [matchesB_congr hs01]; exact hmS)
                    (by rw [starSum_congr hs01]) hst1 ML2.2.2.1 ML2.2.2.2
                have hst3 : (db3.nodes S.rootID).total_mass = starSum db S :=
                  starSum_carry hm2c (by rw [matchesB_congr hs02]; exact hmS)
                    (by rw [starSum_congr hs02]) hst2 ML3.2.2.1 ML3.2.2.2
                have hst4 : (db4.nodes S.rootID).total_mass = starSum db S :=
                  starSum_carry hm3d (by rw [matchesB_congr hs03]; exact hmS)
                    (by rw [starSum_congr hs03]) hst3 ML4.2.2.1 ML4.2.2.2
                exact hfin (starSum db S) hmS rfl hst4
              · have hmS : MatchesB db S = true := matchesB_subtrees hmb S hSb
                have hst2 : (db2.nodes S.rootID).total_mass = starSum db S := by
                  have := ML2.2.2.1 S hSb
                  rw [this, starSum_congr hs01]
                have hst3 : (db3.nodes S.rootID).total_mass = starSum db S :=
                  starSum_carry hm2c (by rw [matchesB_congr hs02]; exact hmS)
                    (by rw [starSum_congr hs02]) hst2 ML3.2.2.1 ML3.2.2.2
                have hst4 : (db4.nodes S.rootID).total_mass = starSum db S :=
                  starSum_carry hm3d (by rw [matchesB_congr hs03]; exact hmS)
                    (by rw [starSum_congr hs03]) hst3 ML4.2.2.1 ML4.2.2.2
                exact hfin (starSum db S) hmS rfl hst4
              · have hmS : MatchesB db S = true := matchesB_subtrees hmc S hSc
                have hst3 : (db3.nodes S.rootID).total_mass = starSum db S := by
                  have := ML3.2.2.1 S hSc
                  rw [this, starSum_congr hs02]
                have hst4 : (db4.nodes S.rootID).total_mass = starSum db S :=
                  starSum_carry hm3d (by rw [matchesB_congr hs03]; exact hmS)
                    (by rw [starSum_congr hs03]) hst3 ML4.2.2.1 ML4.2.2.2
                exact hfin (starSum db S) hmS rfl hst4
              · have hmS : MatchesB db S = true := matchesB_subtrees hmd S hSd
                have hst4 : (db4.nodes S.rootID).total_mass = starSum db S := by
                  have := ML4.2.2.1 S hSd
                  rw [this, starSum_congr hs03]
                exact hfin (starSum db S) hmS rfl hst4
            · -- untouched nodes
              intro k hk
              have hkT : i ≠ k := by
                have := hk (QTree.node i a b c d) (self_mem_subtrees _)
                rwa [hroots] at this
              have hka : ∀ S ∈ a.subtrees, S.rootID ≠ k := by
                intro S hS
                exact hk S (by
                  simp only [QTree.subtrees, List.mem_cons, List.mem_append]
                  exact Or.inr (Or.inl (Or.inl (Or.inl hS))))
              have hkb : ∀ S ∈ b.subtrees, S.rootID ≠ k := by
                intro S hS
                exact hk S (by
                  simp only [QTree.subtrees, List.mem_cons, List.mem_append]
                  exact Or.inr (Or.inl (Or.inl (Or.inr hS))))
              have hkc : ∀ S ∈ c.subtrees, S.rootID ≠ k := by
                intro S hS
                exact hk S (by
                  simp only [QTree.subtrees, List.mem_cons, List.mem_append]
                  exact Or.inr (Or.inl (Or.inr hS)))
              have hkd : ∀ S ∈ d.subtrees, S.rootID ≠ k := by
                intro S hS
                exact hk S (by
                  simp only [QTree.subtrees, List.mem_cons, List.mem_append]
                  exact Or.inr (Or.inr hS))
              rw [hdb'w, hwrite_at k (fun h => hkT h.symm),
                ML4.2.2.2 k hkd, ML3.2.2.2 k hkc, ML2.2.2.2 k hkb,
                ML1.2.2.2 k hka]

end TotalMassLemmas

section ClaimC4

/-- Membership in `subtrees` is transitive. -/
theorem mem_subtrees_trans :
    ∀ (T S Q : QTree), S ∈ T.subtrees → Q ∈ S.subtrees → Q ∈ T.subtrees := by
  intro T
  induction T with
  | leaf i =>
      intro S Q hS hQ
      simp only [QTree.subtrees, List.mem_singleton] at hS
      subst hS
      exact hQ
  | node i a b c d iha ihb ihc ihd =>
      intro S Q hS hQ
      simp only [QTree.subtrees, List.mem_cons, List.mem_append] at hS ⊢
      rcases hS with rfl | ((ha | hb) | hc) | hd
      · simpa only [QTree.subtrees, List.mem_cons, List.mem_append] using hQ
      · exact Or.inr (Or.inl (Or.inl (Or.inl (iha S Q ha hQ))))
      · exact Or.inr (Or.inl (Or.inl (Or.inr (ihb S Q hb hQ))))
      · exact Or.inr (Or.inl (Or.inr (ihc S Q hc hQ)))
      · exact Or.inr (Or.inr (ihd S Q hd hQ))

/-- Claim C4: after `update_total_mass` on a well-formed tree (skeleton `T`
matches the id graph), every node of the tree stores as `total_mass` the sum
of the masses of the stars in its subtree; in particular every internal node
stores the sum of its four children's stored `total_mass`, and every leaf
stores its star's mass when occupied and 0 otherwise. -/
theorem c4_updateTotalMass {K : Type} [LinearOrderedField K]
    (T : QTree) (fuel : ℕ) (db db' : DB K) (m : K)
    (hm : MatchesB db T = true)
    (hrun : updateTotalMassNode fuel db T.rootID = some (db', m)) :
    ∀ S ∈ T.subtrees,
      (db'.nodes S.rootID).total_mass = starSum db S ∧
      (∀ i, S = QTree.leaf i →
        (db'.nodes i).total_mass =
          (if (db.nodes i).star_id ≠ 0 then
            (db.stars (db.nodes i).star_id).M
           else 0)) ∧
      (∀ i a b c d, S = QTree.node i a b c d →
        (db'.nodes i).total_mass =
          (db'.nodes a.rootID).total_mass + (db'.nodes b.rootID).total_mass +
          (db'.nodes c.rootID).total_mass +
          (db'.nodes d.rootID).total_mass) := by
  intro S hS
  have ML := updateTotalMassNode_ml T fuel db db' m hm hrun
  have h1 := ML.2.2.1 S hS
  refine ⟨h1, ?_, ?_⟩
  · intro i hSi
    subst hSi
    simpa only [QTree.rootID, starSum] using h1
  · intro i a b c d hSn
    subst hSn
    have hma : a ∈ T.subtrees :=
      mem_subtrees_trans T _ a hS (by
        simp only [QTree.subtrees, List.mem_cons, List.mem_append]
        exact Or.inr (Or.inl (Or.inl (Or.inl (self_mem_subtrees a)))))
    have hmb : b ∈ T.subtrees :=
      mem_subtrees_trans T _ b hS (by
        simp only [QTree.subtrees, List.mem_cons, List.mem_append]
        exact Or.inr (Or.inl (Or.inl (Or.inr (self_mem_subtrees b)))))
    have hmc : c ∈ T.subtrees :=
      mem_subtrees_trans T _ c hS (by
        simp only [QTree.subtrees, List.mem_cons, List.mem_append]
        exact Or.inr (Or.inl (Or.inr (self_mem_subtrees c))))
    have hmd : d ∈ T.subtrees :=
      mem_subtrees_trans T _ d hS (by
        simp only [QTree.subtrees, List.mem_cons, List.mem_append]
        exact Or.inr (Or.inr (self_mem_subtrees d)))
    rw [ML.2.2.1 a hma, ML.2.2.1 b hmb, ML.2.2.1 c hmc, ML.2.2.1 d hmd]
    simpa only [QTree.rootID, starSum] using h1

/-- Witness for C4: the total-mass pass on the concrete tree `dbAgg` runs,
its root stores the subtree star-mass sum, and that sum is 200. -/
theorem c4_updateTotalMass_witness :
    updateTotalMassNode 3 dbAgg 1 = some tmResAgg ∧
    MatchesB dbAgg TAgg = true ∧
    (tmResAgg.1.nodes 1).total_mass = starSum dbAgg TAgg ∧
    starSum dbAgg TAgg = 200 := by
  have hrun : updateTotalMassNode 3 dbAgg 1 = some tmResAgg := rfl
  have hm : MatchesB dbAgg TAgg = true := by decide
  refine ⟨hrun, hm, ?_, ?_⟩
  · exact (c4_updateTotalMass TAgg 3 dbAgg tmResAgg.1 tmResAgg.2 hm hrun
      TAgg (self_mem_subtrees TAgg)).1
  · norm_num [starSum, TAgg, dbAgg, star0]

end ClaimC4

section CenterOfMassLemmas

variable {K : Type} [LinearOrderedField K]

/-- `comSpec` depends only on what the center-of-mass pass preserves. -/
theorem comSpec_congr {db db' : DB K} (h : SameShapeTM db db') :
    ∀ T : QTree, comSpec db' T = comSpec db T := by
  intro T
  induction T with
  | leaf i => simp [comSpec, (h.1.2 i).2, h.1.1]
  | node i a b c d iha ihb ihc ihd =>
      simp only [comSpec, iha, ihb, ihc, ihd, comWeight, h.2]

/-- A center of mass written by one child's pass survives a later sibling's
pass (uniqueness of skeleton matching). -/
theorem comSpec_carry {db1 db2 : DB K} {B S : QTree} {V : K × K}
    (hmB : MatchesB db1 B = true) (hmS : MatchesB db1 S = true)
    (hV : comSpec db1 S = V)
    (hstored : (db1.nodes S.rootID).center_of_mass = V)
    (hP4 : ∀ S' ∈ B.subtrees,
      (db2.nodes S'.rootID).center_of_mass = comSpec db1 S')
    (hframe : ∀ k, (∀ S' ∈ B.subtrees, S'.rootID ≠ k) →
      (db2.nodes k).center_of_mass = (db1.nodes k).center_of_mass) :
    (db2.nodes S.rootID).center_of_mass = V := by
  by_cases hcov : ∀ S' ∈ B.subtrees, S'.rootID ≠ S.rootID
  · rw [hframe S.rootID hcov, hstored]
  · push_neg at hcov
    obtain ⟨S', hS', hroot⟩ := hcov
    have hmS' := matchesB_subtrees hmB S' hS'
    have hSS : S' = S := matchesB_unique S' S hmS' hmS hroot
    calc (db2.nodes S.rootID).center_of_mass
        = (db2.nodes S'.rootID).center_of_mass := by rw [hroot]
      _ = comSpec db1 S' := hP4 S' hS'
      _ = V := by rw [hSS, hV]

/-- Main lemma for claim C5: a successful run of `updateCenterOfMassNode` on
a matched root returns `comSpec`, changes only `center_of_mass` columns, and
stores `comSpec` at every subtree root. -/
theorem updateCenterOfMassNode_ml :
    ∀ (T : QTree) (fuel : ℕ) (db db' : DB K) (v : Vec2 K),
      MatchesB db T = true →
      updateCenterOfMassNode fuel db T.rootID = some (db', v) →
      (v.X, v.Y) = comSpec db T ∧ SameShapeTM db db' ∧
      (∀ S ∈ T.subtrees,
        (db'.nodes S.rootID).center_of_mass = comSpec db S) ∧
      (∀ k, (∀ S ∈ T.subtrees, S.rootID ≠ k) →
        (db'.nodes k).center_of_mass = (db.nodes k).center_of_mass) := by
  intro T
  induction T with
  | leaf i =>
      intro fuel db db' v hm hrun
      match fuel with
      | 0 => simp [updateCenterOfMassNode] at hrun
      | Nat.succ f =>
        simp only [MatchesB, Bool.and_eq_true, decide_eq_true_eq] at hm
        rw [updateCenterOfMassNode] at hrun
        simp only [QTree.rootID] at hrun
        rw [hm.2] at hrun
        simp only [ne_eq, not_true_eq_false, if_false, ite_not, if_pos rfl,
          Option.some.injEq, Prod.mk.injEq] at hrun
        obtain ⟨hdb', hv⟩ := hrun
        subst hdb'
        subst hv
        refine ⟨?_, sameShapeTM_writeCenterOfMass db i _, ?_, ?_⟩
        · by_cases h : (db.nodes i).star_id = 0 <;>
            simp [comSpec, getStarID, GetStar, h]
        · intro S hS
          simp only [QTree.subtrees, List.mem_singleton] at hS
          subst hS
          by_cases h : (db.nodes i).star_id = 0 <;>
            simp [writeCenterOfMass, setNode, comSpec, getStarID, GetStar, h,
              QTree.rootID]
        · intro k hk
          simp only [QTree.subtrees, List.mem_singleton, forall_eq,
            QTree.rootID] at hk
          simp [writeCenterOfMass, setNode, Ne.symm hk]
  | node i a b c d iha ihb ihc ihd =>
      intro fuel db db' v hm hrun
      match fuel with
      | 0 => simp [updateCenterOfMassNode] at hrun
      | Nat.succ f =>
        have hmp := hm
        simp only [MatchesB, Bool.and_eq_true, decide_eq_true_eq] at hmp
        obtain ⟨⟨⟨⟨⟨⟨h0, hstar⟩, hsub⟩, hma⟩, hmb⟩, hmc⟩, hmd⟩ := hmp
        rw [updateCenterOfMassNode] at hrun
        simp only [QTree.rootID] at hrun
        have hne : ((db.nodes i).subnode ≠ ((0 : ℤ), (0 : ℤ), (0 : ℤ), (0 : ℤ))) := by
          rw [hsub]
          intro hEq
          simp only [Prod.mk.injEq] at hEq
          exact rootID_ne_zero hma hEq.1
        rw [if_pos hne] at hrun
        have hlist : [(db.nodes i).subnode.1, (db.nodes i).subnode.2.1,
            (db.nodes i).subnode.2.2.1, (db.nodes i).subnode.2.2.2] =
            [a.rootID, b.rootID, c.rootID, d.rootID] := by rw [hsub]
        rw [hlist] at hrun
        cases hfold : comFold (updateCenterOfMassNode f) db
            [a.rootID, b.rootID, c.rootID, d.rootID] with
        | none =>
            rw [hfold] at hrun
            simp at hrun
        | some r =>
            rw [hfold] at hrun
            simp only [Option.pure_def, Option.bind_eq_bind, Option.some_bind,
              Option.some.injEq, Prod.mk.injEq] at hrun
            obtain ⟨hdb', hv⟩ := hrun
            rw [comFold] at hfold
            cases h1 : updateCenterOfMassNode f db a.rootID with
            | none => rw [h1] at hfold; simp at hfold
            | some r1 =>
            obtain ⟨db1, v1⟩ := r1
            rw [h1] at hfold
            simp only [Option.pure_def, Option.bind_eq_bind,
              Option.some_bind] at hfold
            rw [comFold] at hfold
            cases h2 : updateCenterOfMassNode f db1 b.rootID with
            | none => rw [h2] at hfold; simp at hfold
            | some r2 =>
            obtain ⟨db2, v2⟩ := r2
            rw [h2] at hfold
            simp only [Option.pure_def, Option.bind_eq_bind,
              Option.some_bind] at hfold
            rw [comFold] at hfold
            cases h3 : updateCenterOfMassNode f db2 c.rootID with
            | none => rw [h3] at hfold; simp at hfold
            | some r3 =>
            obtain ⟨db3, v3⟩ := r3
            rw [h3] at hfold
            simp only [Option.pure_def, Option.bind_eq_bind,
              Option.some_bind] at hfold
            rw [comFold] at hfold
            cases h4 : updateCenterOfMassNode f db3 d.rootID with
            | none => rw [h4] at hfold; simp at hfold
            | some r4 =>
            obtain ⟨db4, v4⟩ := r4
            rw [h4] at hfold
            simp only [Option.pure_def, Option.bind_eq_bind, Option.some_bind,
              comFold, Option.some.injEq] at hfold
            have ML1 := iha f db db1 v1 hma h1
            have hs01 : SameShapeTM db db1 := ML1.2.1
            have hm1b : MatchesB db1 b = true := by
              rw [matchesB_congr hs01.1]; exact hmb
            have ML2 := ihb f db1 db2 v2 hm1b h2
            have hs12 : SameShapeTM db1 db2 := ML2.2.1
            have hs02 : SameShapeTM db db2 := sameShapeTM_trans hs01 hs12
            have hm2c : MatchesB db2 c = true := by
              rw [matchesB_congr hs02.1]; exact hmc
            have ML3 := ihc f db2 db3 v3 hm2c h3
            have hs23 : SameShapeTM db2 db3 := ML3.2.1
            have hs03 : SameShapeTM db db3 := sameShapeTM_trans hs02 hs23
            have hm3d : MatchesB db3 d = true := by
              rw [matchesB_congr hs03.1]; exact hmd
            have ML4 := ihd f db3 db4 v4 hm3d h4
            have hs34 : SameShapeTM db3 db4 := ML4.2.1
            have hs04 : SameShapeTM db db4 := sameShapeTM_trans hs03 hs34
            have hva : (v1.X, v1.Y) = comSpec db a := ML1.1
            have hvb : (v2.X, v2.Y) = comSpec db b := by
              rw [ML2.1, comSpec_congr hs01]
            have hvc : (v3.X, v3.Y) = comSpec db c := by
              rw [ML3.1, comSpec_congr hs02]
            have hvd : (v4.X, v4.Y) = comSpec db d := by
              rw [ML4.1, comSpec_congr hs03]
            -- identify the four contributions with comWeight
            have htm1 : getNodeTotalMass db1 a.rootID =
                (db.nodes a.rootID).total_mass := hs01.2 a.rootID
            have htm2 : getNodeTotalMass db2 b.rootID =
                (db.nodes b.rootID).total_mass := hs02.2 b.rootID
            have htm3 : getNodeTotalMass db3 c.rootID =
                (db.nodes c.rootID).total_mass := hs03.2 c.rootID
            have htm4 : getNodeTotalMass db4 d.rootID =
                (db.nodes d.rootID).total_mass := hs04.2 d.rootID
            have hC1 : (if v1.X ≠ 0 ∧ v1.Y ≠ 0 then
                (getNodeTotalMass db1 a.rootID,
                 v1.X * getNodeTotalMass db1 a.rootID,
                 v1.Y * getNodeTotalMass db1 a.rootID)
               else ((0 : K), (0 : K), (0 : K))) =
                comWeight db a (comSpec db a) := by
              rw [comWeight, ← hva, htm1]
            have hC2 : (if v2.X ≠ 0 ∧ v2.Y ≠ 0 then
                (getNodeTotalMass db2 b.rootID,
                 v2.X * getNodeTotalMass db2 b.rootID,
                 v2.Y * getNodeTotalMass db2 b.rootID)
               else ((0 : K), (0 : K), (0 : K))) =
                comWeight db b (comSpec db b) := by
              rw [comWeight, ← hvb, htm2]
            have hC3 : (if v3.X ≠ 0 ∧ v3.Y ≠ 0 then
                (getNodeTotalMass db3 c.rootID,
                 v3.X * getNodeTotalMass db3 c.rootID,
                 v3.Y * getNodeTotalMass db3 c.rootID)
               else ((0 : K), (0 : K), (0 : K))) =
                comWeight db c (comSpec db c) := by
              rw [comWeight, ← hvc, htm3]
            have hC4 : (if v4.X ≠ 0 ∧ v4.Y ≠ 0 then
                (getNodeTotalMass db4 d.rootID,
                 v4.X * getNodeTotalMass db4 d.rootID,
                 v4.Y * getNodeTotalMass db4 d.rootID)
               else ((0 : K), (0 : K), (0 : K))) =
                comWeight db d (comSpec db d) := by
              rw [comWeight, ← hvd, htm4]
            rw [hC1, hC2, hC3, hC4] at hfold
            have hr : r =
                (db4,
                 (comWeight db a (comSpec db a)).1 +
                   ((comWeight db b (comSpec db b)).1 +
                    ((comWeight db c (comSpec db c)).1 +
                     ((comWeight db d (comSpec db d)).1 + 0))),
                 (comWeight db a (comSpec db a)).2.1 +
                   ((comWeight db b (comSpec db b)).2.1 +
                    ((comWeight db c (comSpec db c)).2.1 +
                     ((comWeight db d (comSpec db d)).2.1 + 0))),
                 (comWeight db a (comSpec db a)).2.2 +
                   ((comWeight db b (comSpec db b)).2.2 +
                    ((comWeight db c (comSpec db c)).2.2 +
                     ((comWeight db d (comSpec db d)).2.2 + 0)))) :=
              hfold.symm
            have hvT : ((⟨r.2.2.1 / r.2.1, r.2.2.2 / r.2.1⟩ : Vec2 K).X,
                (⟨r.2.2.1 / r.2.1, r.2.2.2 / r.2.1⟩ : Vec2 K).Y) =
                comSpec db (QTree.node i a b c d) := by
              rw [hr]
              simp only [comSpec]
            have hr1 : r.1 = db4 := by rw [hr]
            have hdb'w : db' = writeCenterOfMass db4 i
                ⟨r.2.2.1 / r.2.1, r.2.2.2 / r.2.1⟩ := by
              rw [← hdb', hr1]
            have hveq : v = (⟨r.2.2.1 / r.2.1, r.2.2.2 / r.2.1⟩ : Vec2 K) :=
              hv.symm
            have hroots : (QTree.node i a b c d).rootID = i := rfl
            have hwrite_at : ∀ k, k ≠ i →
                ((writeCenterOfMass db4 i
                  ⟨r.2.2.1 / r.2.1, r.2.2.2 / r.2.1⟩).nodes k).center_of_mass =
                (db4.nodes k).center_of_mass := by
              intro k hk
              simp [writeCenterOfMass, setNode, hk]
            have hwrite_self :
                ((writeCenterOfMass db4 i
                  ⟨r.2.2.1 / r.2.1, r.2.2.2 / r.2.1⟩).nodes i).center_of_mass =
                (r.2.2.1 / r.2.1, r.2.2.2 / r.2.1) := by
              simp [writeCenterOfMass, setNode]
            refine ⟨?_, ?_, ?_, ?_⟩
            · rw [hveq]
              exact hvT
            · rw [hdb'w]
              exact sameShapeTM_trans hs04 (sameShapeTM_writeCenterOfMass db4 i _)
            · intro S hS
              simp only [QTree.subtrees, List.mem_cons, List.mem_append] at hS
              have hfin : MatchesB db S = true →
                  (db4.nodes S.rootID).center_of_mass = comSpec db S →
                  (db'.nodes S.rootID).center_of_mass = comSpec db S := by
                intro hmS hst4
                rw [hdb'w]
                by_cases hiS : S.rootID = i
                · have hST : S = QTree.node i a b c d :=
                    matchesB_unique S (QTree.node i a b c d) hmS hm
                      (by rw [hiS, hroots])
                  rw [hiS, hwrite_self, hST]
                  have := hvT
                  simp only [] at this
                  exact this.symm ▸ (by rw [← this])
                · rw [hwrite_at S.rootID hiS, hst4]
              rcases hS with rfl | ((hSa | hSb) | hSc) | hSd
              · rw [hdb'w, hroots, hwrite_self]
                have := hvT
                simp only [] at this
                rw [← this]
              · have hmS : MatchesB db S = true := matchesB_subtrees hma S hSa
                have hst1 : (db1.nodes S.rootID).center_of_mass = comSpec db S :=
                  ML1.2.2.1 S hSa
                have hst2 : (db2.nodes S.rootID).center_of_mass = comSpec db S :=
                  comSpec_carry hm1b (by rw [matchesB_congr hs01.1]; exact hmS)
                    (by rw [comSpec_congr hs01]) hst1 ML2.2.2.1 ML2.2.2.2
                have hst3 : (db3.nodes S.rootID).center_of_mass = comSpec db S :=
                  comSpec_carry hm2c (by rw [matchesB_congr hs02.1]; exact hmS)
                    (by rw [comSpec_congr hs02]) hst2 ML3.2.2.1 ML3.2.2.2
                have hst4 : (db4.nodes S.rootID).center_of_mass = comSpec db S :=
                  comSpec_carry hm3d (by rw [matchesB_congr hs03.1]; exact hmS)
                    (by rw [comSpec_congr hs03]) hst3 ML4.2.2.1 ML4.2.2.2
                exact hfin hmS hst4
              · have hmS : MatchesB db S = true := matchesB_subtrees hmb S hSb
                have hst2 : (db2.nodes S.rootID).center_of_mass = comSpec db S := by
                  have := ML2.2.2.1 S hSb
                  rw [this, comSpec_congr hs01]
                have hst3 : (db3.nodes S.rootID).center_of_mass = comSpec db S :=
                  comSpec_carry hm2c (by rw [matchesB_congr hs02.1]; exact hmS)
                    (by rw [comSpec_congr hs02]) hst2 ML3.2.2.1 ML3.2.2.2
                have hst4 : (db4.nodes S.rootID).center_of_mass = comSpec db S :=
                  comSpec_carry hm3d (by rw [matchesB_congr hs03.1]; exact hmS)
                    (by rw [comSpec_congr hs03]) hst3 ML4.2.2.1 ML4.2.2.2
                exact hfin hmS hst4
              · have hmS : MatchesB db S = true := matchesB_subtrees hmc S hSc
                have hst3 : (db3.nodes S.rootID).center_of_mass = comSpec db S := by
                  have := ML3.2.2.1 S hSc
                  rw [this, comSpec_congr hs02]
                have hst4 : (db4.nodes S.rootID).center_of_mass = comSpec db S :=
                  comSpec_carry hm3d (by rw [matchesB_congr hs03.1]; exact hmS)
                    (by rw [comSpec_congr hs03]) hst3 ML4.2.2.1 ML4.2.2.2
                exact hfin hmS hst4
              · have hmS : MatchesB db S = true := matchesB_subtrees hmd S hSd
                have hst4 : (db4.nodes S.rootID).center_of_mass = comSpec db S := by
                  have := ML4.2.2.1 S hSd
                  rw [this, comSpec_congr hs03]
                exact hfin hmS hst4
            · intro k hk
              have hkT : i ≠ k := by
                have := hk (QTree.node i a b c d) (self_mem_subtrees _)
                rwa [hroots] at this
              have hka : ∀ S ∈ a.subtrees, S.rootID ≠ k := by
                intro S hS
                exact hk S (by
                  simp only [QTree.subtrees, List.mem_cons, List.mem_append]
                  exact Or.inr (Or.inl (Or.inl (Or.inl hS))))
              have hkb : ∀ S ∈ b.subtrees, S.rootID ≠ k := by
                intro S hS
                exact hk S (by
                  simp only [QTree.subtrees, List.mem_cons, List.mem_append]
                  exact Or.inr (Or.inl (Or.inl (Or.inr hS))))
              have hkc : ∀ S ∈ c.subtrees, S.rootID ≠ k := by
                intro S hS
                exact hk S (by
                  simp only [QTree.subtrees, List.mem_cons, List.mem_append]
                  exact Or.inr (Or.inl (Or.inr hS)))
              have hkd : ∀ S ∈ d.subtrees, S.rootID ≠ k := by
                intro S hS
                exact hk S (by
                  simp only [QTree.subtrees, List.mem_cons, List.mem_append]
                  exact Or.inr (Or.inr hS))
              rw [hdb'w, hwrite_at k (fun h => hkT h.symm),
                ML4.2.2.2 k hkd, ML3.2.2.2 k hkc, ML2.2.2.2 k hkb,
                ML1.2.2.2 k hka]

end CenterOfMassLemmas

section ClaimC5

/-- Claim C5 (amended): after `update_center_of_mass` on a well-formed tree,
every node stores `comSpec`: an internal node stores the mass-weighted
average `Σ (child.com · child.total_mass) / Σ child.total_mass` over EXACTLY
those children whose computed center of mass has BOTH components nonzero
(the source's `&&` filter), and a leaf stores its star's position when
occupied and `(0, 0)` otherwise. -/
theorem c5_updateCenterOfMass {K : Type} [LinearOrderedField K]
    (T : QTree) (fuel : ℕ) (db db' : DB K) (v : Vec2 K)
    (hm : MatchesB db T = true)
    (hrun : updateCenterOfMassNode fuel db T.rootID = some (db', v)) :
    ∀ S ∈ T.subtrees,
      (db'.nodes S.rootID).center_of_mass = comSpec db S ∧
      (∀ i, S = QTree.leaf i →
        (db'.nodes i).center_of_mass =
          (if (db.nodes i).star_id = 0 then ((0 : K), (0 : K))
           else ((db.stars (db.nodes i).star_id).C.X,
                 (db.stars (db.nodes i).star_id).C.Y))) := by
  intro S hS
  have ML := updateCenterOfMassNode_ml T fuel db db' v hm hrun
  refine ⟨ML.2.2.1 S hS, ?_⟩
  intro i hSi
  subst hSi
  simpa only [QTree.rootID, comSpec] using ML.2.2.1 _ hS

/-- Witness for the amended C5 at the concrete tree `dbAgg`: the pass runs
and the root stores `comSpec`, which here evaluates to `(3, 4)`. -/
theorem c5_updateCenterOfMass_witness :
    updateCenterOfMassNode 3 dbAgg 1 = some comResAgg ∧
    MatchesB dbAgg TAgg = true ∧
    (comResAgg.1.nodes 1).center_of_mass = comSpec dbAgg TAgg ∧
    comSpec dbAgg TAgg = (3, 4) := by
  have hrun : updateCenterOfMassNode 3 dbAgg 1 = some comResAgg := rfl
  have hm : MatchesB dbAgg TAgg = true := by decide
  refine ⟨hrun, hm, ?_, ?_⟩
  · exact (c5_updateCenterOfMass TAgg 3 dbAgg comResAgg.1 comResAgg.2 hm hrun
      TAgg (self_mem_subtrees TAgg)).1
  · norm_num [comSpec, comWeight, TAgg, dbAgg, star0, QTree.rootID]

/-- Claim C5 counterexample: on `dbAgg`, child 2's star sits at `(5, 0)` — a
NONZERO center-of-mass vector with a zero y-component — and is dropped by
the source's `&&` filter: the root stores `(3, 4)`, whereas the claim's
average over the children with nonzero center-of-mass vector is `(4, 2)`. -/
theorem c5_com_nonzero_filter_counterexample :
    updateCenterOfMassNode 3 dbAgg 1 = some comResAgg ∧
    (comResAgg.1.nodes 1).center_of_mass = (3, 4) ∧
    comClaimSpec dbAgg TAgg = (4, 2) ∧
    (comResAgg.1.nodes 1).center_of_mass ≠ comClaimSpec dbAgg TAgg := by
  have hrun : updateCenterOfMassNode 3 dbAgg 1 = some comResAgg := rfl
  have hm : MatchesB dbAgg TAgg = true := by decide
  have hstored : (comResAgg.1.nodes 1).center_of_mass = comSpec dbAgg TAgg :=
    (updateCenterOfMassNode_ml TAgg 3 dbAgg comResAgg.1 comResAgg.2 hm
      hrun).2.2.1 TAgg (self_mem_subtrees TAgg)
  have hval : comSpec dbAgg TAgg = ((3 : ℚ), (4 : ℚ)) := by
    norm_num [comSpec, comWeight, TAgg, dbAgg, star0, QTree.rootID]
  have hclaim : comClaimSpec dbAgg TAgg = ((4 : ℚ), (2 : ℚ)) := by
    norm_num [comClaimSpec, comClaimWeight, TAgg, dbAgg, star0, QTree.rootID]
  refine ⟨hrun, hstored.trans hval, hclaim, ?_⟩
  rw [hstored.trans hval, hclaim]
  norm_num

end ClaimC5
